import Mathlib

/-!
# PI_TRIGGER message codec and the serial demo program

A shallow embedding of `mavlink/v1.0/ardupilotmega/mavlink_msg_pi_trigger.h`
and of `mavlink_test.cpp`.  Machine bytes are `Fin 256`, memory reached through
a pointer is a map from byte offsets to bytes, and every function that writes
through a pointer returns the memory it leaves behind.

The generated header is taken under `MAVLINK_CRC_EXTRA = 1`, the setting in
which the checksum seed of a message is fed to the checksum; the two layout
switches `MAVLINK_NEED_BYTE_SWAP` and `MAVLINK_ALIGNED_FIELDS` are kept as a
parameter (`Build`), so that both compile-time variants of every function are
modelled.  The MAVLink core the header calls into (finalisation, checksum,
serialisation, the streaming parser) is not part of the sources; where a
statement needs it, it is modelled from the specification and marked so.
-/

set_option linter.unusedVariables false

namespace Mavlink

/-! ## Machine integers and memory -/

/-- An unsigned 8-bit machine integer. -/
abbrev uint8_t := Fin 256

/-- An unsigned 16-bit machine integer. -/
abbrev uint16_t := Fin 65536

/-- Conversion to `uint8_t`, keeping the low eight bits. -/
def to_uint8 (n : Nat) : uint8_t := ⟨n % 256, Nat.mod_lt n (by decide)⟩

/-- Conversion to `uint16_t`, keeping the low sixteen bits. -/
def to_uint16 (n : Nat) : uint16_t := ⟨n % 65536, Nat.mod_lt n (by decide)⟩

/-- Memory reached through a pointer: the byte stored at each offset. -/
abbrev Mem := Nat → uint8_t

/-- The C library `memcpy(dst, src, n)`: the first `n` bytes of `dst` are
replaced by those of `src`. -/
def memcpy (dst src : Mem) (n : Nat) : Mem :=
  fun i => if i < n then src i else dst i

/-- The `n` bytes a callee reads through a pointer. -/
def readBytes (p : Mem) (n : Nat) : List uint8_t :=
  (List.range n).map p

/-! ## Compile-time configuration -/

/-- The two layout switches the generated header tests with `#if`. -/
structure Build where
  MAVLINK_NEED_BYTE_SWAP : Bool
  MAVLINK_ALIGNED_FIELDS : Bool
  deriving DecidableEq

/-- The condition `MAVLINK_NEED_BYTE_SWAP || !MAVLINK_ALIGNED_FIELDS`. -/
def Build.bytewise (b : Build) : Bool :=
  b.MAVLINK_NEED_BYTE_SWAP || !b.MAVLINK_ALIGNED_FIELDS

/-! ## The PI_TRIGGER message -/

def MAVLINK_MSG_ID_PI_TRIGGER : uint8_t := 185

def MAVLINK_MSG_ID_PI_TRIGGER_LEN : Nat := 1

def MAVLINK_MSG_ID_PI_TRIGGER_CRC : uint8_t := 145

/-- The C struct `mavlink_pi_trigger_t`. -/
structure mavlink_pi_trigger_t where
  data : uint8_t
  deriving DecidableEq

/-- The struct read from the memory a `mavlink_pi_trigger_t *` points to: its
only member sits at `offsetof(mavlink_pi_trigger_t, data) = 0`. -/
def mavlink_pi_trigger_t.load (m : Mem) : mavlink_pi_trigger_t :=
  { data := m 0 }

/-- The memory at `&packet` once the struct is stored in it: the object is one
byte wide, the bytes behind it are left as they were. -/
def mavlink_pi_trigger_t.store (p : mavlink_pi_trigger_t) (m : Mem) : Mem :=
  fun i => if i = 0 then p.data else m i

/-- One entry of the field table of `MAVLINK_MESSAGE_INFO_PI_TRIGGER`. -/
structure mavlink_field_info_t where
  width : Nat
  array_length : Nat
  wire_offset : Nat
  structure_offset : Nat
  deriving DecidableEq

/-- The descriptor `MAVLINK_MESSAGE_INFO_PI_TRIGGER`. -/
structure mavlink_message_info_t where
  num_fields : Nat
  fields : List mavlink_field_info_t
  deriving DecidableEq

/-- The width in bytes of a `MAVLINK_TYPE_UINT8_T` field. -/
def MAVLINK_TYPE_UINT8_T_WIDTH : Nat := 1

/-- The descriptor of PI_TRIGGER:
`{ "data", NULL, MAVLINK_TYPE_UINT8_T, 0, 0, offsetof(mavlink_pi_trigger_t, data) }`. -/
def MAVLINK_MESSAGE_INFO_PI_TRIGGER : mavlink_message_info_t :=
  { num_fields := 1
    fields := [{ width := MAVLINK_TYPE_UINT8_T_WIDTH, array_length := 0,
                 wire_offset := 0, structure_offset := 0 }] }

/-- The bytes one field occupies on the wire: its width, once per array element
(an `array_length` of 0 marks a scalar). -/
def mavlink_field_info_t.wire_size (f : mavlink_field_info_t) : Nat :=
  f.width * (if f.array_length = 0 then 1 else f.array_length)

/-- The sum of the wire sizes of the declared fields. -/
def mavlink_message_info_t.wire_size (d : mavlink_message_info_t) : Nat :=
  (d.fields.map mavlink_field_info_t.wire_size).sum

/-! ## The message buffer -/

/-- Modelled from the spec: the declaration of `mavlink_message_t` is not part
of the sources.  The fields are those of the spec's Frame (start marker,
payload length, sequence, system id, component id, message id, payload,
checksum), under the names the sources use (`msgid`, `sysid`, `compid`). -/
structure mavlink_message_t where
  checksum : uint16_t
  magic : uint8_t
  len : uint8_t
  seq : uint8_t
  sysid : uint8_t
  compid : uint8_t
  msgid : uint8_t
  payload : Mem

/-- Modelled from the spec: the macro `_MAV_PAYLOAD(msg)`, absent from the
sources, is the pointer to the payload bytes of the message. -/
def _MAV_PAYLOAD (msg : mavlink_message_t) : Mem := msg.payload

/-- Modelled from the spec: the field codec `_mav_put_uint8_t(buf, wire_offset, b)`,
absent from the sources, stores the one byte of a uint8 field at its offset. -/
def _mav_put_uint8_t (buf : Mem) (wire_offset : Nat) (b : uint8_t) : Mem :=
  Function.update buf wire_offset b

/-- Modelled from the spec: the field codec `_MAV_RETURN_uint8_t(msg, wire_offset)`,
absent from the sources, reads the one byte of a uint8 field at its offset of
the payload. -/
def _MAV_RETURN_uint8_t (msg : mavlink_message_t) (wire_offset : Nat) : uint8_t :=
  _MAV_PAYLOAD msg wire_offset

/-! ## Checksum and finalisation -/

/-- One bit of the reflected CRC with polynomial 0x1021 (0x8408 reflected). -/
def crc_shift (crc : Nat) : Nat :=
  if crc % 2 = 1 then (crc / 2) ^^^ 0x8408 else crc / 2

/-- Modelled from the spec: `crc_accumulate`, absent from the sources, is the
standard CRC-16/X.25 update for one byte (reflected polynomial 0x1021, no
final XOR on the running register). -/
def crc_accumulate (data : uint8_t) (crcAccum : uint16_t) : uint16_t :=
  to_uint16 (crc_shift^[8] (crcAccum.val ^^^ data.val))

/-- The initial value 0xFFFF of the CRC register. -/
def X25_INIT_CRC : uint16_t := 0xFFFF

/-- Modelled from the spec: the CRC-16/X.25 of a byte sequence, the register
started at 0xFFFF and updated byte by byte. -/
def crc_calculate (bytes : List uint8_t) : uint16_t :=
  bytes.foldl (fun crc b => crc_accumulate b crc) X25_INIT_CRC

/-- Modelled from the spec: `crc_accumulate_buffer`, absent from the sources,
continues a running CRC over a byte sequence. -/
def crc_accumulate_buffer (crcAccum : uint16_t) (bytes : List uint8_t) : uint16_t :=
  bytes.foldl (fun crc b => crc_accumulate b crc) crcAccum

/-- The low byte of a checksum, sent first. -/
def mavlink_ck_a (ck : uint16_t) : uint8_t := to_uint8 (ck.val &&& 0xFF)

/-- The high byte of a checksum, sent second. -/
def mavlink_ck_b (ck : uint16_t) : uint8_t := to_uint8 (ck.val >>> 8)

/-- The sequence counter of every channel (`current_tx_seq` of the channel
status), the process-wide state the finalisation step advances. -/
abbrev TxState := uint8_t → uint8_t

def MAVLINK_COMM_0 : uint8_t := 0

def MAVLINK_COMM_1 : uint8_t := 1

/-- Modelled from the spec: `mavlink_finalize_message_chan` is absent from the
sources.  Following the spec's Encoder it fills the header of the message
(start marker, payload length, the channel's sequence number, system and
component id), advances the channel's sequence number modulo 256, and stores
the CRC-16/X.25 of `[len, seq, sysid, compid, msgid] ++ payload` followed by
`crc_extra`.  The payload and the message id are left as the caller wrote them.
The `uint16_t` the helper returns is not described by the spec and is not
modelled. -/
def mavlink_finalize_message_chan (STX : uint8_t) (tx : TxState) (msg : mavlink_message_t)
    (system_id component_id chan length crc_extra : uint8_t) : TxState × mavlink_message_t :=
  let seq := tx chan
  let hdr : List uint8_t := [length, seq, system_id, component_id, msg.msgid]
  let ck := crc_calculate hdr
  let ck := crc_accumulate_buffer ck (readBytes (_MAV_PAYLOAD msg) length.val)
  let ck := crc_accumulate crc_extra ck
  (Function.update tx chan (seq + 1),
   { msg with magic := STX, len := length, sysid := system_id, compid := component_id,
              seq := seq, checksum := ck })

/-- Modelled from the spec: `mavlink_finalize_message`, absent from the
sources, is the finalisation step on the default channel `MAVLINK_COMM_0`. -/
def mavlink_finalize_message (STX : uint8_t) (tx : TxState) (msg : mavlink_message_t)
    (system_id component_id length crc_extra : uint8_t) : TxState × mavlink_message_t :=
  mavlink_finalize_message_chan STX tx msg system_id component_id MAVLINK_COMM_0 length crc_extra

/-- Modelled from the spec: `mavlink_msg_to_send_buffer`, absent from the
sources, is the spec's `pack_into_wire_bytes`: start marker, payload length,
sequence, system id, component id, message id, the payload, then the checksum
with its low byte first. -/
def mavlink_msg_to_send_buffer (msg : mavlink_message_t) : List uint8_t :=
  [msg.magic, msg.len, msg.seq, msg.sysid, msg.compid, msg.msgid]
    ++ readBytes (_MAV_PAYLOAD msg) msg.len.val
    ++ [mavlink_ck_a msg.checksum, mavlink_ck_b msg.checksum]

/-! ## Packing -/

/-- The arguments of one call of `mavlink_finalize_message`. -/
structure FinalizeCall where
  msg : mavlink_message_t
  system_id : uint8_t
  component_id : uint8_t
  length : uint8_t
  crc_extra : uint8_t

/-- The arguments of one call of `mavlink_finalize_message_chan`. -/
structure FinalizeChanCall where
  msg : mavlink_message_t
  system_id : uint8_t
  component_id : uint8_t
  chan : uint8_t
  length : uint8_t
  crc_extra : uint8_t

/-- The payload write at the head of `mavlink_msg_pi_trigger_pack` and of
`mavlink_msg_pi_trigger_pack_chan`, in both compile-time variants.  `junk` is
the indeterminate content of the local (`buf` or `packet`) before it is
written. -/
def pi_trigger_write_payload (b : Build) (junk : Mem) (msg : mavlink_message_t)
    (data : uint8_t) : mavlink_message_t :=
  if b.bytewise then
    let buf : Mem := junk
    let buf := _mav_put_uint8_t buf 0 data
    { msg with payload := memcpy (_MAV_PAYLOAD msg) buf MAVLINK_MSG_ID_PI_TRIGGER_LEN }
  else
    let packet : mavlink_pi_trigger_t := mavlink_pi_trigger_t.load junk
    let packet := { packet with data := data }
    { msg with payload := memcpy (_MAV_PAYLOAD msg) (packet.store junk)
                            MAVLINK_MSG_ID_PI_TRIGGER_LEN }

/-- The body of `mavlink_msg_pi_trigger_pack` up to its `return`: the call of
`mavlink_finalize_message` it makes. -/
def mavlink_msg_pi_trigger_pack_call (b : Build) (junk : Mem)
    (system_id component_id : uint8_t) (msg : mavlink_message_t) (data : uint8_t) :
    FinalizeCall :=
  let msg := pi_trigger_write_payload b junk msg data
  let msg := { msg with msgid := MAVLINK_MSG_ID_PI_TRIGGER }
  { msg := msg, system_id := system_id, component_id := component_id,
    length := to_uint8 MAVLINK_MSG_ID_PI_TRIGGER_LEN,
    crc_extra := MAVLINK_MSG_ID_PI_TRIGGER_CRC }

/-- The body of `mavlink_msg_pi_trigger_pack_chan` up to its `return`: the call
of `mavlink_finalize_message_chan` it makes. -/
def mavlink_msg_pi_trigger_pack_chan_call (b : Build) (junk : Mem)
    (system_id component_id chan : uint8_t) (msg : mavlink_message_t) (data : uint8_t) :
    FinalizeChanCall :=
  let msg := pi_trigger_write_payload b junk msg data
  let msg := { msg with msgid := MAVLINK_MSG_ID_PI_TRIGGER }
  { msg := msg, system_id := system_id, component_id := component_id, chan := chan,
    length := to_uint8 MAVLINK_MSG_ID_PI_TRIGGER_LEN,
    crc_extra := MAVLINK_MSG_ID_PI_TRIGGER_CRC }

/-- The function `mavlink_msg_pi_trigger_pack`: the sequence counters and the
message it leaves behind. -/
def mavlink_msg_pi_trigger_pack (STX : uint8_t) (b : Build) (junk : Mem) (tx : TxState)
    (system_id component_id : uint8_t) (msg : mavlink_message_t) (data : uint8_t) :
    TxState × mavlink_message_t :=
  let c := mavlink_msg_pi_trigger_pack_call b junk system_id component_id msg data
  mavlink_finalize_message STX tx c.msg c.system_id c.component_id c.length c.crc_extra

/-- The function `mavlink_msg_pi_trigger_pack_chan`. -/
def mavlink_msg_pi_trigger_pack_chan (STX : uint8_t) (b : Build) (junk : Mem) (tx : TxState)
    (system_id component_id chan : uint8_t) (msg : mavlink_message_t) (data : uint8_t) :
    TxState × mavlink_message_t :=
  let c := mavlink_msg_pi_trigger_pack_chan_call b junk system_id component_id chan msg data
  mavlink_finalize_message_chan STX tx c.msg c.system_id c.component_id c.chan c.length
    c.crc_extra

/-- The function `mavlink_msg_pi_trigger_encode`. -/
def mavlink_msg_pi_trigger_encode (STX : uint8_t) (b : Build) (junk : Mem) (tx : TxState)
    (system_id component_id : uint8_t) (msg : mavlink_message_t)
    (pi_trigger : mavlink_pi_trigger_t) : TxState × mavlink_message_t :=
  mavlink_msg_pi_trigger_pack STX b junk tx system_id component_id msg pi_trigger.data

/-- The function `mavlink_msg_pi_trigger_encode_chan`. -/
def mavlink_msg_pi_trigger_encode_chan (STX : uint8_t) (b : Build) (junk : Mem) (tx : TxState)
    (system_id component_id chan : uint8_t) (msg : mavlink_message_t)
    (pi_trigger : mavlink_pi_trigger_t) : TxState × mavlink_message_t :=
  mavlink_msg_pi_trigger_pack_chan STX b junk tx system_id component_id chan msg pi_trigger.data

/-! ## Unpacking -/

/-- The function `mavlink_msg_pi_trigger_get_data`. -/
def mavlink_msg_pi_trigger_get_data (msg : mavlink_message_t) : uint8_t :=
  _MAV_RETURN_uint8_t msg 0

/-- The function `mavlink_msg_pi_trigger_decode`: the message and the memory at
`pi_trigger` after the call.  Under `MAVLINK_NEED_BYTE_SWAP` the member is
assigned from the getter, otherwise the payload is copied over the struct. -/
def mavlink_msg_pi_trigger_decode (b : Build) (msg : mavlink_message_t) (pi_trigger : Mem) :
    mavlink_message_t × Mem :=
  if b.MAVLINK_NEED_BYTE_SWAP then
    let s := mavlink_pi_trigger_t.load pi_trigger
    let s := { s with data := mavlink_msg_pi_trigger_get_data msg }
    (msg, s.store pi_trigger)
  else
    (msg, memcpy pi_trigger (_MAV_PAYLOAD msg) MAVLINK_MSG_ID_PI_TRIGGER_LEN)

/-- A message with an all-zero buffer, for evaluating the definitions. -/
def zero_message : mavlink_message_t :=
  { checksum := 0, magic := 0, len := 0, seq := 0, sysid := 0, compid := 0, msgid := 0,
    payload := fun _ => 0 }

/-! ## Convenience senders -/

/-- The arguments of one call of `_mav_finalize_message_chan_send`; `packet` is
the memory its pointer argument points to. -/
structure ChanSendCall where
  chan : uint8_t
  msgid : uint8_t
  packet : Mem
  length : uint8_t
  crc_extra : uint8_t

/-- The payload bytes the callee reads: `length` bytes through `packet`. -/
def ChanSendCall.bytes (c : ChanSendCall) : List uint8_t :=
  readBytes c.packet c.length.val

/-- The call handed to a finalise-and-send step `send`, any function of the
channel, the message id, the payload bytes, the length and the checksum seed. -/
def ChanSendCall.run {F : Type} (send : uint8_t → uint8_t → List uint8_t → uint8_t → uint8_t → F)
    (c : ChanSendCall) : F :=
  send c.chan c.msgid c.bytes c.length c.crc_extra

/-- The function `mavlink_msg_pi_trigger_send`: the call of
`_mav_finalize_message_chan_send` it makes.  `junk` is the indeterminate
content of its local (`buf` or `packet`). -/
def mavlink_msg_pi_trigger_send (b : Build) (junk : Mem) (chan : uint8_t) (data : uint8_t) :
    ChanSendCall :=
  if b.bytewise then
    let buf : Mem := junk
    let buf := _mav_put_uint8_t buf 0 data
    { chan := chan, msgid := MAVLINK_MSG_ID_PI_TRIGGER, packet := buf,
      length := to_uint8 MAVLINK_MSG_ID_PI_TRIGGER_LEN,
      crc_extra := MAVLINK_MSG_ID_PI_TRIGGER_CRC }
  else
    let packet : mavlink_pi_trigger_t := mavlink_pi_trigger_t.load junk
    let packet := { packet with data := data }
    { chan := chan, msgid := MAVLINK_MSG_ID_PI_TRIGGER, packet := packet.store junk,
      length := to_uint8 MAVLINK_MSG_ID_PI_TRIGGER_LEN,
      crc_extra := MAVLINK_MSG_ID_PI_TRIGGER_CRC }

/-- The function `mavlink_msg_pi_trigger_send_buf`: the memory of the caller's
`msgbuf` after the call, and the call of `_mav_finalize_message_chan_send` it
makes.  The payload is written at the start of `msgbuf`. -/
def mavlink_msg_pi_trigger_send_buf (b : Build) (msgbuf : Mem) (chan : uint8_t)
    (data : uint8_t) : Mem × ChanSendCall :=
  if b.bytewise then
    let buf : Mem := msgbuf
    let buf := _mav_put_uint8_t buf 0 data
    (buf, { chan := chan, msgid := MAVLINK_MSG_ID_PI_TRIGGER, packet := buf,
            length := to_uint8 MAVLINK_MSG_ID_PI_TRIGGER_LEN,
            crc_extra := MAVLINK_MSG_ID_PI_TRIGGER_CRC })
  else
    let packet : mavlink_pi_trigger_t := mavlink_pi_trigger_t.load msgbuf
    let packet := { packet with data := data }
    let mem := packet.store msgbuf
    (mem, { chan := chan, msgid := MAVLINK_MSG_ID_PI_TRIGGER, packet := mem,
            length := to_uint8 MAVLINK_MSG_ID_PI_TRIGGER_LEN,
            crc_extra := MAVLINK_MSG_ID_PI_TRIGGER_CRC })

/-! ## The streaming parser -/

/-- Modelled from the spec: the phases of the streaming parser (§4.4), named by
what has been received.  `GOT_START` is the phase the spec calls
`GOT_LENGTH`-pending. -/
inductive ParsePhase where
  | IDLE
  | GOT_START
  | GOT_LENGTH
  | GOT_SEQUENCE
  | GOT_SYSTEM_ID
  | GOT_COMPONENT_ID
  | GOT_MESSAGE_ID
  | IN_PAYLOAD
  | GOT_CHECKSUM_LOW
  deriving DecidableEq

/-- Modelled from the spec: the Parser State of one channel (§3): the phase,
the frame under construction, the running checksum, the payload bytes received
so far, the low checksum byte once received, and the count of dropped frames.
The expected payload length is the `len` of the frame under construction. -/
structure ParserState where
  phase : ParsePhase
  frame : mavlink_message_t
  crc : uint16_t
  count : Nat
  ck_low : uint8_t
  dropped_frame_count : Nat

/-- Modelled from the spec: the reasons a frame is rejected. -/
inductive RejectReason where
  | ChecksumMismatch
  deriving DecidableEq

/-- Modelled from the spec: the outcome of feeding one byte. -/
inductive ParseOutcome where
  | Incomplete
  | FrameReady (frame : mavlink_message_t)
  | FrameRejected (reason : RejectReason)

/-- The frame of an outcome, when it is `FrameReady`. -/
def ParseOutcome.frame? : ParseOutcome → Option mavlink_message_t
  | .FrameReady f => some f
  | _ => none

/-- Whether the outcome is `Incomplete`. -/
def ParseOutcome.isIncomplete : ParseOutcome → Bool
  | .Incomplete => true
  | _ => false

/-- Modelled from the spec: the Message Registry as the parser consults it,
the checksum seed of each registered message id. -/
abbrev Registry := uint8_t → Option uint8_t

/-- The registry holding PI_TRIGGER alone, the one message of the sources. -/
def pi_trigger_registry : Registry :=
  fun id => if id = MAVLINK_MSG_ID_PI_TRIGGER then some MAVLINK_MSG_ID_PI_TRIGGER_CRC else none

/-- The state of a channel that has not been used. -/
def ParserState.fresh : ParserState :=
  { phase := .IDLE, frame := zero_message, crc := X25_INIT_CRC, count := 0, ck_low := 0,
    dropped_frame_count := 0 }

/-- Modelled from the spec: the validation on the second checksum byte.  The
two received bytes, low first, are compared with the running checksum after
the seed of the message id has been fed to it; an id the registry does not
resolve makes the frame corrupt. -/
def ParserState.validate (reg : Registry) (st : ParserState) (ck_high : uint8_t) :
    ParserState × ParseOutcome :=
  let received : Nat := st.ck_low.val + 256 * ck_high.val
  let idle := { st with phase := .IDLE }
  match reg st.frame.msgid with
  | some crc_extra =>
    if received = (crc_accumulate crc_extra st.crc).val then
      (idle, .FrameReady { st.frame with checksum := to_uint16 received })
    else
      ({ idle with dropped_frame_count := st.dropped_frame_count + 1 },
       .FrameRejected .ChecksumMismatch)
  | none =>
    ({ idle with dropped_frame_count := st.dropped_frame_count + 1 },
     .FrameRejected .ChecksumMismatch)

/-- Modelled from the spec: `feed_byte` of §4.4 on the state of one channel.
In `IDLE` only the start marker begins a frame; every header byte and payload
byte is stored and fed to the running checksum; after `len` payload bytes (none
when `len` is 0) the two checksum bytes follow and the frame is validated. -/
def feed_byte (reg : Registry) (STX : uint8_t) (st : ParserState) (c : uint8_t) :
    ParserState × ParseOutcome :=
  match st.phase with
  | .IDLE =>
    if c = STX then
      ({ st with phase := .GOT_START, frame := { st.frame with magic := c },
                 crc := X25_INIT_CRC, count := 0 }, .Incomplete)
    else (st, .Incomplete)
  | .GOT_START =>
    ({ st with phase := .GOT_LENGTH, frame := { st.frame with len := c },
               crc := crc_accumulate c st.crc }, .Incomplete)
  | .GOT_LENGTH =>
    ({ st with phase := .GOT_SEQUENCE, frame := { st.frame with seq := c },
               crc := crc_accumulate c st.crc }, .Incomplete)
  | .GOT_SEQUENCE =>
    ({ st with phase := .GOT_SYSTEM_ID, frame := { st.frame with sysid := c },
               crc := crc_accumulate c st.crc }, .Incomplete)
  | .GOT_SYSTEM_ID =>
    ({ st with phase := .GOT_COMPONENT_ID, frame := { st.frame with compid := c },
               crc := crc_accumulate c st.crc }, .Incomplete)
  | .GOT_COMPONENT_ID =>
    ({ st with phase := .GOT_MESSAGE_ID, frame := { st.frame with msgid := c },
               crc := crc_accumulate c st.crc }, .Incomplete)
  | .GOT_MESSAGE_ID =>
    if st.frame.len.val = 0 then
      ({ st with phase := .GOT_CHECKSUM_LOW, ck_low := c }, .Incomplete)
    else
      ({ st with phase := .IN_PAYLOAD,
                 frame := { st.frame with payload := Function.update st.frame.payload 0 c },
                 crc := crc_accumulate c st.crc, count := 1 }, .Incomplete)
  | .IN_PAYLOAD =>
    if st.count < st.frame.len.val then
      ({ st with frame := { st.frame with
                   payload := Function.update st.frame.payload st.count c },
                 crc := crc_accumulate c st.crc, count := st.count + 1 }, .Incomplete)
    else
      ({ st with phase := .GOT_CHECKSUM_LOW, ck_low := c }, .Incomplete)
  | .GOT_CHECKSUM_LOW => st.validate reg c

/-- Modelled from the spec: `mavlink_parse_char`, absent from the sources, is
`feed_byte` on the state of the named channel (the Channel Multiplexer, §4.5);
the states of the other channels are left alone. -/
def mavlink_parse_char (reg : Registry) (STX : uint8_t) (chans : uint8_t → ParserState)
    (chan : uint8_t) (c : uint8_t) : (uint8_t → ParserState) × ParseOutcome :=
  let r := feed_byte reg STX (chans chan) c
  (Function.update chans chan r.1, r.2)

/-- The outcomes of feeding a sequence of bytes on one channel, one at a time,
and the channel states afterwards. -/
def parse_chars (reg : Registry) (STX : uint8_t) (chan : uint8_t) :
    (uint8_t → ParserState) → List uint8_t → (uint8_t → ParserState) × List ParseOutcome
  | chans, [] => (chans, [])
  | chans, c :: cs =>
    let r := mavlink_parse_char reg STX chans chan c
    let rest := parse_chars reg STX chan r.1 cs
    (rest.1, r.2 :: rest.2)

/-- The value `mavlink_parse_char` returns for an outcome: 1 for a complete
message, 0 otherwise. -/
def ParseOutcome.msgReceived : ParseOutcome → uint8_t
  | .FrameReady _ => 1
  | _ => 0

/-! ## The demo program: sending -/

/-- The function `sendRequestDataStream`: the sequence counters afterwards, the
bytes handed to `write`, and the value returned.  `message` is the
indeterminate content of the local message buffer, `junk` that of the locals
of the packing function. -/
def sendRequestDataStream (STX : uint8_t) (b : Build) (junk : Mem) (tx : TxState)
    (message : mavlink_message_t) : TxState × List uint8_t × Int :=
  let trigger : mavlink_pi_trigger_t := mavlink_pi_trigger_t.load junk
  let trigger := { trigger with data := 123 }
  let r := mavlink_msg_pi_trigger_encode STX b junk tx 255 1 message trigger
  let buf := mavlink_msg_to_send_buffer r.2
  (r.1, buf, 0)

/-! ## The demo program: receiving -/

/-- One result of `read(fd, &cp, 1)`: the value returned and the byte in `cp`
afterwards. -/
structure ReadResult where
  ret : Int
  cp : uint8_t
  deriving DecidableEq

/-- What `serial_readMSG` did over a finite sequence of read results: the
parser state it left, the calls of `mavlink_parse_char` it made (channel and
byte, in order), the number of reads it consumed, and the value it returned
(`none` while the loop is still waiting for input). -/
structure ReadRun (P : Type) where
  parser : P
  fed : List (uint8_t × uint8_t)
  reads : Nat
  ret : Option Int

/-- The function `serial_readMSG`, over the results of its successive `read`
calls.  `parse chan c st` is `mavlink_parse_char(chan, c, &message, &status)`
on the parser state `st` (which holds `message` and `status` too): the state
afterwards and the value returned.  The diagnostic output is not modelled. -/
def serial_readMSG {P : Type} (parse : uint8_t → uint8_t → P → P × uint8_t) :
    P → List ReadResult → ReadRun P
  | st, [] => { parser := st, fed := [], reads := 0, ret := none }
  | st, r :: rs =>
    if r.ret > 0 then
      let res := parse MAVLINK_COMM_1 r.cp st
      let msgReceived := res.2
      if msgReceived ≠ 0 then
        { parser := res.1, fed := [(MAVLINK_COMM_1, r.cp)], reads := 1, ret := some 0 }
      else
        let run := serial_readMSG parse res.1 rs
        { run with fed := (MAVLINK_COMM_1, r.cp) :: run.fed, reads := run.reads + 1 }
    else
      let run := serial_readMSG parse st rs
      { run with reads := run.reads + 1 }

/-- The values a parser returns when the given calls are made one after the
other from state `st`. -/
def parse_reports {P : Type} (parse : uint8_t → uint8_t → P → P × uint8_t) :
    P → List (uint8_t × uint8_t) → List uint8_t
  | _, [] => []
  | st, call :: rest =>
    (parse call.1 call.2 st).2 :: parse_reports parse (parse call.1 call.2 st).1 rest

/-- The parser state after the given calls are made one after the other. -/
def parse_all {P : Type} (parse : uint8_t → uint8_t → P → P × uint8_t) :
    P → List (uint8_t × uint8_t) → P
  | st, [] => st
  | st, call :: rest => parse_all parse (parse call.1 call.2 st).1 rest

/-- The bytes of the successful reads, each paired with `MAVLINK_COMM_1`. -/
def successful_bytes (reads : List ReadResult) : List (uint8_t × uint8_t) :=
  (reads.filter (fun r => decide (r.ret > 0))).map (fun r => (MAVLINK_COMM_1, r.cp))

/-! ## The demo program: configuring the port -/

/-- The C struct `termios`, as far as `setup_port` touches it. -/
structure termios where
  c_iflag : Nat
  c_oflag : Nat
  c_cflag : Nat
  c_lflag : Nat
  c_cc : Nat → Nat

/-- The constants of `<termios.h>` that `setup_port` names; `OLCUC` and
`ONOEOT` exist on some platforms only. -/
structure TermiosConsts where
  IGNBRK : Nat
  BRKINT : Nat
  ICRNL : Nat
  INLCR : Nat
  PARMRK : Nat
  INPCK : Nat
  ISTRIP : Nat
  IXON : Nat
  OCRNL : Nat
  ONLCR : Nat
  ONLRET : Nat
  ONOCR : Nat
  OFILL : Nat
  OPOST : Nat
  OLCUC : Option Nat
  ONOEOT : Option Nat
  ECHO : Nat
  ECHONL : Nat
  ICANON : Nat
  IEXTEN : Nat
  ISIG : Nat
  CSIZE : Nat
  PARENB : Nat
  CS8 : Nat
  VMIN : Nat
  VTIME : Nat
  TCSAFLUSH : Int
  B1200 : Nat
  B1800 : Nat
  B9600 : Nat
  B19200 : Nat
  B38400 : Nat
  B57600 : Nat
  B115200 : Nat

/-- The system calls `setup_port` makes: each gives the value returned and,
where the call writes a `termios`, the struct afterwards. -/
structure SerialOS where
  isatty : Int → Int
  tcgetattr : Int → Int × termios
  cfsetispeed : termios → Nat → Int × termios
  cfsetospeed : termios → Nat → Int × termios
  tcsetattr : Int → Int → termios → Int

/-- What `setup_port` did: the value returned and the configuration handed to
`tcsetattr` with its descriptor, `none` when `tcsetattr` is not reached. -/
structure SetupResult where
  ret : Bool
  applied : Option (Int × termios)

/-- The operation `flags &= ~mask`: the bits of `flags` that are not in `mask`. -/
def clear_flags (flags mask : Nat) : Nat := flags ^^^ (flags &&& mask)

/-- The pattern `if (cfsetispeed(&config, s) < 0 || cfsetospeed(&config, s) < 0) return false;`
of `setup_port`: `none` when it returns false, the struct afterwards otherwise.
The second call is made only when the first succeeds. -/
def set_speed_checked (os : SerialOS) (config : termios) (speed : Nat) : Option termios :=
  let i := os.cfsetispeed config speed
  if i.1 < 0 then none
  else
    let o := os.cfsetospeed i.2 speed
    if o.1 < 0 then none else some o.2

/-- The pattern `cfsetispeed(&config, s); cfsetospeed(&config, s);` of
`setup_port`, the results ignored. -/
def set_speed_unchecked (os : SerialOS) (config : termios) (speed : Nat) : termios :=
  (os.cfsetospeed (os.cfsetispeed config speed).2 speed).2

/-- The `switch (baud)` of `setup_port`: `none` when it returns false. -/
def setup_port_baud (k : TermiosConsts) (os : SerialOS) (config : termios) (baud : Int) :
    Option termios :=
  if baud = 1200 then set_speed_checked os config k.B1200
  else if baud = 1800 then some (set_speed_unchecked os config k.B1800)
  else if baud = 9600 then some (set_speed_unchecked os config k.B9600)
  else if baud = 19200 then some (set_speed_unchecked os config k.B19200)
  else if baud = 38400 then set_speed_checked os config k.B38400
  else if baud = 57600 then set_speed_checked os config k.B57600
  else if baud = 115200 then set_speed_checked os config k.B115200
  else if baud = 460800 then set_speed_checked os config 460800
  else if baud = 921600 then set_speed_checked os config 921600
  else none

/-- The flag and control-character settings `setup_port` makes before the
`switch`. -/
def setup_port_flags (k : TermiosConsts) (config : termios) : termios :=
  let iflag := clear_flags config.c_iflag
    (k.IGNBRK ||| k.BRKINT ||| k.ICRNL ||| k.INLCR ||| k.PARMRK ||| k.INPCK ||| k.ISTRIP
      ||| k.IXON)
  let oflag := clear_flags config.c_oflag
    (k.OCRNL ||| k.ONLCR ||| k.ONLRET ||| k.ONOCR ||| k.OFILL ||| k.OPOST)
  let oflag := match k.OLCUC with
    | some m => clear_flags oflag m
    | none => oflag
  let oflag := match k.ONOEOT with
    | some m => clear_flags oflag m
    | none => oflag
  let lflag := clear_flags config.c_lflag
    (k.ECHO ||| k.ECHONL ||| k.ICANON ||| k.IEXTEN ||| k.ISIG)
  let cflag := clear_flags config.c_cflag (k.CSIZE ||| k.PARENB)
  let cflag := cflag ||| k.CS8
  let cc := Function.update config.c_cc k.VMIN 1
  let cc := Function.update cc k.VTIME 10
  { c_iflag := iflag, c_oflag := oflag, c_cflag := cflag, c_lflag := lflag, c_cc := cc }

/-- The function `setup_port`.  The messages written to `stderr` are not
modelled. -/
def setup_port (k : TermiosConsts) (os : SerialOS) (fd : Int) (baud : Int)
    (data_bits : Int) (stop_bits : Int) (parity : Bool) (hardware_control : Bool) :
    SetupResult :=
  if os.isatty fd = 0 then { ret := false, applied := none }
  else
    let g := os.tcgetattr fd
    if g.1 < 0 then { ret := false, applied := none }
    else
      let config := setup_port_flags k g.2
      match setup_port_baud k os config baud with
      | none => { ret := false, applied := none }
      | some config =>
        if os.tcsetattr fd k.TCSAFLUSH config < 0 then
          { ret := false, applied := some (fd, config) }
        else
          { ret := true, applied := some (fd, config) }

/-- The baud rates `setup_port` has a `case` for. -/
def supported_bauds : List Int :=
  [1200, 1800, 9600, 19200, 38400, 57600, 115200, 460800, 921600]

/-- The values the constants have on Linux, where `ONOEOT` does not exist, for
evaluating `setup_port`. -/
def linux_termios : TermiosConsts :=
  { IGNBRK := 0x1, BRKINT := 0x2, ICRNL := 0x100, INLCR := 0x40, PARMRK := 0x8, INPCK := 0x10,
    ISTRIP := 0x20, IXON := 0x400,
    OCRNL := 0x8, ONLCR := 0x4, ONLRET := 0x20, ONOCR := 0x10, OFILL := 0x40, OPOST := 0x1,
    OLCUC := some 0x2, ONOEOT := none,
    ECHO := 0x8, ECHONL := 0x40, ICANON := 0x2, IEXTEN := 0x8000, ISIG := 0x1,
    CSIZE := 0x30, PARENB := 0x100, CS8 := 0x30,
    VMIN := 6, VTIME := 5, TCSAFLUSH := 2,
    B1200 := 9, B1800 := 10, B9600 := 13, B19200 := 14, B38400 := 15, B57600 := 4097,
    B115200 := 4098 }

/-- A system on which every descriptor is a terminal and every call succeeds,
for evaluating `setup_port`. -/
def obliging_os : SerialOS :=
  { isatty := fun _ => 1
    tcgetattr := fun _ =>
      (0, { c_iflag := 0x500, c_oflag := 0x5, c_cflag := 0xbf, c_lflag := 0x8a3b,
            c_cc := fun _ => 0 })
    cfsetispeed := fun config _ => (0, config)
    cfsetospeed := fun config speed =>
      (0, { config with c_cflag := clear_flags config.c_cflag 0x100f ||| speed })
    tcsetattr := fun _ _ _ => 0 }

/-! ## The demo program: opening the port and starting up -/

/-- The file calls `open_port` makes, with the constants of `<fcntl.h>` it
names: `open_file path flags` is the value `open` returns. -/
structure FileOS where
  O_RDWR : Nat
  O_NOCTTY : Nat
  O_NDELAY : Nat
  F_SETFL : Int
  open_file : List uint8_t → Nat → Int

/-- What `open_port` did: the value returned and the arguments of its `fcntl`
call, `none` when `fcntl` is not reached. -/
structure OpenResult where
  ret : Int
  fcntl_call : Option (Int × Int × Int)
  deriving DecidableEq

/-- The function `open_port`; `port` holds the characters of the path. -/
def open_port (fs : FileOS) (port : List uint8_t) : OpenResult :=
  let fd := fs.open_file port (fs.O_RDWR ||| fs.O_NOCTTY ||| fs.O_NDELAY)
  if fd = -1 then { ret := -1, fcntl_call := none }
  else { ret := fd, fcntl_call := some (fd, fs.F_SETFL, 0) }

/-- The constant `EXIT_FAILURE` of `<cstdlib>`. -/
def EXIT_FAILURE : Int := 1

/-- What `setupPort` did: the value returned, the global `fd` afterwards, and
what its call of `setup_port` did, `none` when `setup_port` is not reached. -/
structure SetupPortResult where
  ret : Int
  fd : Int
  setup : Option SetupResult

/-- The function `setupPort`.  The progress messages are not modelled. -/
def setupPort (k : TermiosConsts) (os : SerialOS) (fs : FileOS) (uart_name : List uint8_t)
    (baudrate : Int) : SetupPortResult :=
  let fd := (open_port fs uart_name).ret
  if fd = -1 then { ret := EXIT_FAILURE, fd := fd, setup := none }
  else
    let setup := setup_port k os fd baudrate 8 1 false false
    if !setup.ret then { ret := EXIT_FAILURE, fd := fd, setup := some setup }
    else
      let noErrors : Int := 0
      if fd = -1 ∨ fd = 0 then { ret := EXIT_FAILURE, fd := fd, setup := some setup }
      else if fd < 0 then { ret := noErrors, fd := fd, setup := some setup }
      else { ret := 2, fd := fd, setup := some setup }

/-- The path in `main`, the characters of `/dev/ttyACM1`. -/
def main_uart_name : List uint8_t := [47, 100, 101, 118, 47, 116, 116, 121, 65, 67, 77, 49]

/-- How the start of `main` ends: with `exit(status)`, or by going on to send
and receive on the descriptor. -/
inductive MainStart where
  | exited (status : Int)
  | proceeds (fd : Int)
  deriving DecidableEq

/-- The function `main` up to the point where it either exits or goes on to
`sendRequestDataStream` and the receive loop. -/
def main (k : TermiosConsts) (os : SerialOS) (fs : FileOS) : MainStart :=
  let uart_name := main_uart_name
  let baudrate : Int := 115200
  let r := setupPort k os fs uart_name baudrate
  let status := r.ret
  if status = EXIT_FAILURE ∨ status = 0 then .exited status else .proceeds r.fd

/-- A file system on which `open` always gives the descriptor `fd`, with the
constants of Linux, for evaluating `setupPort`. -/
def opening_fs (fd : Int) : FileOS :=
  { O_RDWR := 2, O_NOCTTY := 0x100, O_NDELAY := 0x800, F_SETFL := 4,
    open_file := fun _ _ => fd }

/-! ## Frames on the wire -/

/-- The wire bytes of a PI_TRIGGER frame with the given sequence number, ids
and data: header, payload, and the CRC-16/X.25 of
`[1, seq, sysid, compid, 185, data, 145]` with its low byte first. -/
def pi_trigger_wire (STX seq system_id component_id data : uint8_t) : List uint8_t :=
  [STX, 1, seq, system_id, component_id, 185, data,
   mavlink_ck_a (crc_calculate [1, seq, system_id, component_id, 185, data, 145]),
   mavlink_ck_b (crc_calculate [1, seq, system_id, component_id, 185, data, 145])]

/-- The outcomes of feeding a sequence of bytes to the state of one channel,
one at a time, and the state afterwards. -/
def feed_bytes (reg : Registry) (STX : uint8_t) :
    ParserState → List uint8_t → ParserState × List ParseOutcome
  | st, [] => (st, [])
  | st, c :: cs =>
    let r := feed_byte reg STX st c
    let rest := feed_bytes reg STX r.1 cs
    (rest.1, r.2 :: rest.2)

/-! ## Lemmas on memory and on the payload write -/

theorem readBytes_one (p : Mem) : readBytes p 1 = [p 0] := by
  simp [readBytes, List.range_succ]

theorem pi_trigger_len_val : (to_uint8 MAVLINK_MSG_ID_PI_TRIGGER_LEN).val = 1 := by
  decide

theorem pi_trigger_len_eq : to_uint8 MAVLINK_MSG_ID_PI_TRIGGER_LEN = 1 := by
  decide

/-- Copying one byte whose value is `data` over a buffer. -/
theorem memcpy_one (dst src : Mem) (data : uint8_t) (h : src 0 = data) :
    memcpy dst src 1 = fun i => if i = 0 then data else dst i := by
  funext i
  by_cases hi : i = 0
  · simp [memcpy, hi, h]
  · have : ¬ i < 1 := by omega
    simp [memcpy, hi, this]

/-- The payload write touches the payload only: byte 0 becomes `data`, every
other byte is the one the message held before, in both compile-time variants. -/
theorem write_payload_eq (b : Build) (junk : Mem) (msg : mavlink_message_t) (data : uint8_t) :
    pi_trigger_write_payload b junk msg data
      = { msg with payload := fun i => if i = 0 then data else msg.payload i } := by
  unfold pi_trigger_write_payload
  cases b.bytewise
  · have h : memcpy (_MAV_PAYLOAD msg) (mavlink_pi_trigger_t.store { data := data } junk)
        MAVLINK_MSG_ID_PI_TRIGGER_LEN = fun i => if i = 0 then data else msg.payload i :=
      memcpy_one _ _ data (by simp [mavlink_pi_trigger_t.store])
    simp [h]
  · have h : memcpy (_MAV_PAYLOAD msg) (_mav_put_uint8_t junk 0 data)
        MAVLINK_MSG_ID_PI_TRIGGER_LEN = fun i => if i = 0 then data else msg.payload i :=
      memcpy_one _ _ data (by simp [_mav_put_uint8_t])
    simp [h]

/-- The call `mavlink_msg_pi_trigger_pack` makes, in closed form. -/
theorem pack_call_eq (b : Build) (junk : Mem) (system_id component_id : uint8_t)
    (msg : mavlink_message_t) (data : uint8_t) :
    mavlink_msg_pi_trigger_pack_call b junk system_id component_id msg data
      = { msg := { msg with payload := fun i => if i = 0 then data else msg.payload i,
                            msgid := 185 },
          system_id := system_id, component_id := component_id, length := 1,
          crc_extra := 145 } := by
  simp [mavlink_msg_pi_trigger_pack_call, write_payload_eq, pi_trigger_len_eq,
    MAVLINK_MSG_ID_PI_TRIGGER, MAVLINK_MSG_ID_PI_TRIGGER_CRC]

/-- The call `mavlink_msg_pi_trigger_pack_chan` makes, in closed form. -/
theorem pack_chan_call_eq (b : Build) (junk : Mem) (system_id component_id chan : uint8_t)
    (msg : mavlink_message_t) (data : uint8_t) :
    mavlink_msg_pi_trigger_pack_chan_call b junk system_id component_id chan msg data
      = { msg := { msg with payload := fun i => if i = 0 then data else msg.payload i,
                            msgid := 185 },
          system_id := system_id, component_id := component_id, chan := chan, length := 1,
          crc_extra := 145 } := by
  simp [mavlink_msg_pi_trigger_pack_chan_call, write_payload_eq, pi_trigger_len_eq,
    MAVLINK_MSG_ID_PI_TRIGGER, MAVLINK_MSG_ID_PI_TRIGGER_CRC]

/-- The finalisation step leaves the payload and the message id alone. -/
theorem finalize_chan_payload (STX : uint8_t) (tx : TxState) (msg : mavlink_message_t)
    (system_id component_id chan length crc_extra : uint8_t) :
    (mavlink_finalize_message_chan STX tx msg system_id component_id chan length crc_extra).2.payload
        = msg.payload
      ∧ (mavlink_finalize_message_chan STX tx msg system_id component_id chan length
          crc_extra).2.msgid = msg.msgid := by
  simp [mavlink_finalize_message_chan]

/-- The payload byte 0 of a packed message is the data packed. -/
theorem pack_payload_zero (STX : uint8_t) (b : Build) (junk : Mem) (tx : TxState)
    (system_id component_id : uint8_t) (msg : mavlink_message_t) (d : uint8_t) :
    (mavlink_msg_pi_trigger_pack STX b junk tx system_id component_id msg d).2.payload 0 = d := by
  simp [mavlink_msg_pi_trigger_pack, mavlink_finalize_message, finalize_chan_payload,
    pack_call_eq]

/-- The struct a decode leaves is made of payload byte 0, in both variants. -/
theorem decode_load (b : Build) (msg : mavlink_message_t) (out : Mem) :
    mavlink_pi_trigger_t.load (mavlink_msg_pi_trigger_decode b msg out).2
      = { data := msg.payload 0 } := by
  unfold mavlink_msg_pi_trigger_decode
  by_cases hb : b.MAVLINK_NEED_BYTE_SWAP = true
  · simp [hb, mavlink_pi_trigger_t.load, mavlink_pi_trigger_t.store,
      mavlink_msg_pi_trigger_get_data, _MAV_RETURN_uint8_t, _MAV_PAYLOAD]
  · simp [hb, mavlink_pi_trigger_t.load, memcpy, _MAV_PAYLOAD, MAVLINK_MSG_ID_PI_TRIGGER_LEN]

/-! ## C1: round trip -/

/-- C1: for every byte `d`, every system and component id, every build of the
sender (`b`) and of the receiver (`b2`) and whatever the buffers held before,
decoding the message produced by `mavlink_msg_pi_trigger_pack`, or by
`mavlink_msg_pi_trigger_encode` from a struct with `data = d`, yields a struct
whose `data` is `d`, and `mavlink_msg_pi_trigger_get_data` returns `d`. -/
theorem pi_trigger_round_trip (STX : uint8_t) (b b2 : Build) (junk : Mem) (tx : TxState)
    (system_id component_id : uint8_t) (msg : mavlink_message_t) (out : Mem) (d : uint8_t) :
    (mavlink_pi_trigger_t.load (mavlink_msg_pi_trigger_decode b2
        (mavlink_msg_pi_trigger_pack STX b junk tx system_id component_id msg d).2 out).2).data = d
    ∧ mavlink_msg_pi_trigger_get_data
        (mavlink_msg_pi_trigger_pack STX b junk tx system_id component_id msg d).2 = d
    ∧ (mavlink_pi_trigger_t.load (mavlink_msg_pi_trigger_decode b2
        (mavlink_msg_pi_trigger_encode STX b junk tx system_id component_id msg
          { data := d }).2 out).2).data = d
    ∧ mavlink_msg_pi_trigger_get_data
        (mavlink_msg_pi_trigger_encode STX b junk tx system_id component_id msg
          { data := d }).2 = d := by
  have h := pack_payload_zero STX b junk tx system_id component_id msg d
  refine ⟨?_, ?_, ?_, ?_⟩
  · rw [decode_load]; exact h
  · simpa [mavlink_msg_pi_trigger_get_data, _MAV_RETURN_uint8_t, _MAV_PAYLOAD] using h
  · rw [decode_load]; exact h
  · simpa [mavlink_msg_pi_trigger_get_data, _MAV_RETURN_uint8_t, _MAV_PAYLOAD,
      mavlink_msg_pi_trigger_encode] using h

/-! ## C5: payload layout -/

/-- C5: for every data value, `mavlink_msg_pi_trigger_pack` and
`mavlink_msg_pi_trigger_pack_chan` set the message id to 185, write a payload
of `MAVLINK_MSG_ID_PI_TRIGGER_LEN = 1` byte whose byte at offset 0 is `data`
and leave every other payload byte as it was, and hand the message to the
finalisation step with the caller's ids (and channel), length 1 and crc_extra
145; the one declared field is a uint8 at offset 0 and the declared fields
together are as wide as the payload length. -/
theorem pi_trigger_payload_layout (STX : uint8_t) (b : Build) (junk : Mem) (tx : TxState)
    (system_id component_id chan : uint8_t) (msg : mavlink_message_t) (data : uint8_t) :
    ((mavlink_msg_pi_trigger_pack_call b junk system_id component_id msg data).msg.msgid = 185
      ∧ readBytes (_MAV_PAYLOAD
            (mavlink_msg_pi_trigger_pack_call b junk system_id component_id msg data).msg)
          MAVLINK_MSG_ID_PI_TRIGGER_LEN = [data]
      ∧ (∀ i, i ≠ 0 →
          (mavlink_msg_pi_trigger_pack_call b junk system_id component_id msg data).msg.payload i
            = msg.payload i)
      ∧ (mavlink_msg_pi_trigger_pack_call b junk system_id component_id msg data).system_id
          = system_id
      ∧ (mavlink_msg_pi_trigger_pack_call b junk system_id component_id msg data).component_id
          = component_id
      ∧ (mavlink_msg_pi_trigger_pack_call b junk system_id component_id msg data).length = 1
      ∧ (mavlink_msg_pi_trigger_pack_call b junk system_id component_id msg data).crc_extra
          = 145
      ∧ mavlink_msg_pi_trigger_pack STX b junk tx system_id component_id msg data
          = mavlink_finalize_message STX tx
              (mavlink_msg_pi_trigger_pack_call b junk system_id component_id msg data).msg
              system_id component_id 1 145)
    ∧ ((mavlink_msg_pi_trigger_pack_chan_call b junk system_id component_id chan msg
          data).msg.msgid = 185
      ∧ readBytes (_MAV_PAYLOAD
            (mavlink_msg_pi_trigger_pack_chan_call b junk system_id component_id chan msg
              data).msg)
          MAVLINK_MSG_ID_PI_TRIGGER_LEN = [data]
      ∧ (∀ i, i ≠ 0 →
          (mavlink_msg_pi_trigger_pack_chan_call b junk system_id component_id chan msg
            data).msg.payload i = msg.payload i)
      ∧ (mavlink_msg_pi_trigger_pack_chan_call b junk system_id component_id chan msg
          data).system_id = system_id
      ∧ (mavlink_msg_pi_trigger_pack_chan_call b junk system_id component_id chan msg
          data).component_id = component_id
      ∧ (mavlink_msg_pi_trigger_pack_chan_call b junk system_id component_id chan msg
          data).chan = chan
      ∧ (mavlink_msg_pi_trigger_pack_chan_call b junk system_id component_id chan msg
          data).length = 1
      ∧ (mavlink_msg_pi_trigger_pack_chan_call b junk system_id component_id chan msg
          data).crc_extra = 145
      ∧ mavlink_msg_pi_trigger_pack_chan STX b junk tx system_id component_id chan msg data
          = mavlink_finalize_message_chan STX tx
              (mavlink_msg_pi_trigger_pack_chan_call b junk system_id component_id chan msg
                data).msg
              system_id component_id chan 1 145)
    ∧ MAVLINK_MSG_ID_PI_TRIGGER_LEN = 1
    ∧ MAVLINK_MESSAGE_INFO_PI_TRIGGER.fields
        = [{ width := 1, array_length := 0, wire_offset := 0, structure_offset := 0 }]
    ∧ MAVLINK_MESSAGE_INFO_PI_TRIGGER.fields.length = MAVLINK_MESSAGE_INFO_PI_TRIGGER.num_fields
    ∧ MAVLINK_MESSAGE_INFO_PI_TRIGGER.wire_size = MAVLINK_MSG_ID_PI_TRIGGER_LEN := by
  refine ⟨⟨?_, ?_, ?_, ?_, ?_, ?_, ?_, ?_⟩, ⟨?_, ?_, ?_, ?_, ?_, ?_, ?_, ?_, ?_⟩,
    rfl, rfl, rfl, rfl⟩
  · simp [pack_call_eq]
  · simp [pack_call_eq, MAVLINK_MSG_ID_PI_TRIGGER_LEN, readBytes_one, _MAV_PAYLOAD]
  · intro i hi
    simp [pack_call_eq, hi]
  · simp [pack_call_eq]
  · simp [pack_call_eq]
  · simp [pack_call_eq]
  · simp [pack_call_eq]
  · simp [mavlink_msg_pi_trigger_pack, pack_call_eq]
  · simp [pack_chan_call_eq]
  · simp [pack_chan_call_eq, MAVLINK_MSG_ID_PI_TRIGGER_LEN, readBytes_one, _MAV_PAYLOAD]
  · intro i hi
    simp [pack_chan_call_eq, hi]
  · simp [pack_chan_call_eq]
  · simp [pack_chan_call_eq]
  · simp [pack_chan_call_eq]
  · simp [pack_chan_call_eq]
  · simp [pack_chan_call_eq]
  · simp [mavlink_msg_pi_trigger_pack_chan, pack_chan_call_eq]

/-! ## C6: the two compile-time variants agree -/

/-- C6: for every data value, system id, component id and channel, any two
builds of `mavlink_msg_pi_trigger_pack` and of `mavlink_msg_pi_trigger_pack_chan`
(in particular the byte-buffer variant and the struct-memcpy variant), whatever
their locals held, hand the same message (payload bytes, message id and every
other field) and the same arguments to the finalisation step, and so leave the
same message and sequence counters. -/
theorem pi_trigger_pack_variants_agree (STX : uint8_t) (b1 b2 : Build) (junk1 junk2 : Mem)
    (tx : TxState) (system_id component_id chan : uint8_t) (msg : mavlink_message_t)
    (data : uint8_t) :
    mavlink_msg_pi_trigger_pack_call b1 junk1 system_id component_id msg data
        = mavlink_msg_pi_trigger_pack_call b2 junk2 system_id component_id msg data
    ∧ mavlink_msg_pi_trigger_pack_chan_call b1 junk1 system_id component_id chan msg data
        = mavlink_msg_pi_trigger_pack_chan_call b2 junk2 system_id component_id chan msg data
    ∧ mavlink_msg_pi_trigger_pack STX b1 junk1 tx system_id component_id msg data
        = mavlink_msg_pi_trigger_pack STX b2 junk2 tx system_id component_id msg data
    ∧ mavlink_msg_pi_trigger_pack_chan STX b1 junk1 tx system_id component_id chan msg data
        = mavlink_msg_pi_trigger_pack_chan STX b2 junk2 tx system_id component_id chan msg
            data := by
  refine ⟨?_, ?_, ?_, ?_⟩
  · rw [pack_call_eq, pack_call_eq]
  · rw [pack_chan_call_eq, pack_chan_call_eq]
  · simp only [mavlink_msg_pi_trigger_pack, pack_call_eq]
  · simp only [mavlink_msg_pi_trigger_pack_chan, pack_chan_call_eq]

/-! ## C7: sending from a caller's buffer -/

/-- The call `mavlink_msg_pi_trigger_send` makes reads the one byte `data`. -/
theorem send_bytes (b : Build) (junk : Mem) (chan data : uint8_t) :
    (mavlink_msg_pi_trigger_send b junk chan data).bytes = [data] := by
  unfold mavlink_msg_pi_trigger_send
  cases b.bytewise <;>
    simp [ChanSendCall.bytes, pi_trigger_len_val, readBytes_one, _mav_put_uint8_t,
      mavlink_pi_trigger_t.store]

/-- The call `mavlink_msg_pi_trigger_send_buf` makes reads the one byte `data`. -/
theorem send_buf_bytes (b : Build) (msgbuf : Mem) (chan data : uint8_t) :
    (mavlink_msg_pi_trigger_send_buf b msgbuf chan data).2.bytes = [data] := by
  unfold mavlink_msg_pi_trigger_send_buf
  cases b.bytewise <;>
    simp [ChanSendCall.bytes, pi_trigger_len_val, readBytes_one, _mav_put_uint8_t,
      mavlink_pi_trigger_t.store]

/-- The scalar arguments of the call `mavlink_msg_pi_trigger_send` makes. -/
theorem send_args (b : Build) (junk : Mem) (chan data : uint8_t) :
    (mavlink_msg_pi_trigger_send b junk chan data).chan = chan
    ∧ (mavlink_msg_pi_trigger_send b junk chan data).msgid = 185
    ∧ (mavlink_msg_pi_trigger_send b junk chan data).length = 1
    ∧ (mavlink_msg_pi_trigger_send b junk chan data).crc_extra = 145 := by
  unfold mavlink_msg_pi_trigger_send
  cases b.bytewise <;>
    simp [pi_trigger_len_eq, MAVLINK_MSG_ID_PI_TRIGGER, MAVLINK_MSG_ID_PI_TRIGGER_CRC]

/-- The scalar arguments of the call `mavlink_msg_pi_trigger_send_buf` makes. -/
theorem send_buf_args (b : Build) (msgbuf : Mem) (chan data : uint8_t) :
    (mavlink_msg_pi_trigger_send_buf b msgbuf chan data).2.chan = chan
    ∧ (mavlink_msg_pi_trigger_send_buf b msgbuf chan data).2.msgid = 185
    ∧ (mavlink_msg_pi_trigger_send_buf b msgbuf chan data).2.length = 1
    ∧ (mavlink_msg_pi_trigger_send_buf b msgbuf chan data).2.crc_extra = 145 := by
  unfold mavlink_msg_pi_trigger_send_buf
  cases b.bytewise <;>
    simp [pi_trigger_len_eq, MAVLINK_MSG_ID_PI_TRIGGER, MAVLINK_MSG_ID_PI_TRIGGER_CRC]

/-- C7: for every channel, data value, build and caller-supplied buffer,
`mavlink_msg_pi_trigger_send_buf` and `mavlink_msg_pi_trigger_send` hand the
same channel, message id 185, payload bytes `[data]`, length 1 and crc_extra
145 to the finalise-and-send step, so whatever that step does with its
arguments (`send`), both transmit the same frame. -/
theorem pi_trigger_send_buf_same_as_send (b1 b2 : Build) (junk msgbuf : Mem)
    (chan data : uint8_t) :
    ((mavlink_msg_pi_trigger_send b1 junk chan data).chan = chan
      ∧ (mavlink_msg_pi_trigger_send b1 junk chan data).msgid = 185
      ∧ (mavlink_msg_pi_trigger_send b1 junk chan data).bytes = [data]
      ∧ (mavlink_msg_pi_trigger_send b1 junk chan data).length = 1
      ∧ (mavlink_msg_pi_trigger_send b1 junk chan data).crc_extra = 145)
    ∧ ((mavlink_msg_pi_trigger_send_buf b2 msgbuf chan data).2.chan = chan
      ∧ (mavlink_msg_pi_trigger_send_buf b2 msgbuf chan data).2.msgid = 185
      ∧ (mavlink_msg_pi_trigger_send_buf b2 msgbuf chan data).2.bytes = [data]
      ∧ (mavlink_msg_pi_trigger_send_buf b2 msgbuf chan data).2.length = 1
      ∧ (mavlink_msg_pi_trigger_send_buf b2 msgbuf chan data).2.crc_extra = 145)
    ∧ (∀ (F : Type) (send : uint8_t → uint8_t → List uint8_t → uint8_t → uint8_t → F),
        (mavlink_msg_pi_trigger_send_buf b2 msgbuf chan data).2.run send
          = (mavlink_msg_pi_trigger_send b1 junk chan data).run send) := by
  obtain ⟨h1, h2, h3, h4⟩ := send_args b1 junk chan data
  obtain ⟨g1, g2, g3, g4⟩ := send_buf_args b2 msgbuf chan data
  have hb := send_bytes b1 junk chan data
  have gb := send_buf_bytes b2 msgbuf chan data
  refine ⟨⟨h1, h2, hb, h3, h4⟩, ⟨g1, g2, gb, g3, g4⟩, ?_⟩
  intro F send
  simp only [ChanSendCall.run, h1, h2, h3, h4, g1, g2, g3, g4, hb, gb]

/-! ## C9: decoding reads the payload only -/

/-- C9: for every message and build, `mavlink_msg_pi_trigger_decode` leaves a
struct whose `data` is `mavlink_msg_pi_trigger_get_data msg`, which is payload
byte 0; it writes nothing behind the struct; two messages that agree on
payload byte 0 decode to the same struct whatever their other fields, the
builds and the previous content of the struct; and the message is unchanged. -/
theorem pi_trigger_decode_reads_payload (b : Build) (msg : mavlink_message_t) (out : Mem) :
    mavlink_pi_trigger_t.load (mavlink_msg_pi_trigger_decode b msg out).2
        = { data := mavlink_msg_pi_trigger_get_data msg }
    ∧ mavlink_msg_pi_trigger_get_data msg = msg.payload 0
    ∧ (∀ i, i ≠ 0 → (mavlink_msg_pi_trigger_decode b msg out).2 i = out i)
    ∧ (∀ (b2 : Build) (msg2 : mavlink_message_t) (out2 : Mem),
        msg2.payload 0 = msg.payload 0 →
          mavlink_pi_trigger_t.load (mavlink_msg_pi_trigger_decode b2 msg2 out2).2
            = mavlink_pi_trigger_t.load (mavlink_msg_pi_trigger_decode b msg out).2)
    ∧ (mavlink_msg_pi_trigger_decode b msg out).1 = msg := by
  refine ⟨?_, rfl, ?_, ?_, ?_⟩
  · rw [decode_load]; rfl
  · intro i hi
    have : ¬ i < 1 := by omega
    unfold mavlink_msg_pi_trigger_decode
    cases b.MAVLINK_NEED_BYTE_SWAP <;>
      simp [memcpy, mavlink_pi_trigger_t.store, hi, this, MAVLINK_MSG_ID_PI_TRIGGER_LEN]
  · intro b2 msg2 out2 h
    rw [decode_load, decode_load, h]
  · unfold mavlink_msg_pi_trigger_decode
    cases b.MAVLINK_NEED_BYTE_SWAP <;> simp

/-! ## C2: the wire bytes of an encoded PI_TRIGGER -/

/-- The wire bytes of a packed message. -/
theorem to_send_buffer_pack (STX : uint8_t) (b : Build) (junk : Mem) (tx : TxState)
    (system_id component_id : uint8_t) (msg : mavlink_message_t) (data : uint8_t) :
    mavlink_msg_to_send_buffer
        (mavlink_msg_pi_trigger_pack STX b junk tx system_id component_id msg data).2
      = pi_trigger_wire STX (tx MAVLINK_COMM_0) system_id component_id data := by
  have h1 : ((1 : uint8_t)).val = 1 := rfl
  rw [mavlink_msg_pi_trigger_pack, pack_call_eq]
  simp only [mavlink_finalize_message, mavlink_finalize_message_chan,
    mavlink_msg_to_send_buffer, _MAV_PAYLOAD, h1, readBytes_one]
  rfl

/-- The low checksum byte is the checksum modulo 256. -/
theorem ck_a_val (ck : uint16_t) : (mavlink_ck_a ck).val = ck.val % 256 := by
  have h : ck.val &&& 0xFF = ck.val % 256 := Nat.and_pow_two_sub_one_eq_mod ck.val 8
  simp [mavlink_ck_a, to_uint8, h]

/-- The high checksum byte is the checksum divided by 256. -/
theorem ck_b_val (ck : uint16_t) : (mavlink_ck_b ck).val = ck.val / 256 := by
  have h : ck.val >>> 8 = ck.val / 256 := Nat.shiftRight_eq_div_pow ck.val 8
  have hlt : ck.val / 256 < 256 := by
    have := ck.isLt
    omega
  simp [mavlink_ck_b, to_uint8, h, Nat.mod_eq_of_lt hlt]

/-- The two checksum bytes, low byte first, make up the checksum. -/
theorem ck_recombine (ck : uint16_t) :
    (mavlink_ck_a ck).val + 256 * (mavlink_ck_b ck).val = ck.val := by
  rw [ck_a_val, ck_b_val]
  omega

/-- C2: for every start marker, sequence number (the counter of the default
channel), system id, component id, data value and build, serialising the
message `mavlink_msg_pi_trigger_encode` produces gives exactly the 9 wire
bytes START, 1, SEQ, SYS, COMP, 185, data, CKSUM_LOW, CKSUM_HIGH, where the
checksum is the CRC-16/X.25 of `[1, SEQ, SYS, COMP, 185, data, 145]` and its
two bytes are its low and high byte; `sendRequestDataStream` writes these bytes
for system id 255, component id 1 and data 123. -/
theorem pi_trigger_encode_wire_bytes (STX : uint8_t) (b : Build) (junk : Mem) (tx : TxState)
    (system_id component_id : uint8_t) (msg : mavlink_message_t) (data : uint8_t) :
    mavlink_msg_to_send_buffer
        (mavlink_msg_pi_trigger_encode STX b junk tx system_id component_id msg
          { data := data }).2
      = [STX, 1, tx MAVLINK_COMM_0, system_id, component_id, 185, data,
         mavlink_ck_a (crc_calculate
           [1, tx MAVLINK_COMM_0, system_id, component_id, 185, data, 145]),
         mavlink_ck_b (crc_calculate
           [1, tx MAVLINK_COMM_0, system_id, component_id, 185, data, 145])]
    ∧ (mavlink_msg_to_send_buffer
        (mavlink_msg_pi_trigger_encode STX b junk tx system_id component_id msg
          { data := data }).2).length = 9
    ∧ (mavlink_ck_a (crc_calculate
          [1, tx MAVLINK_COMM_0, system_id, component_id, 185, data, 145])).val
        = (crc_calculate
            [1, tx MAVLINK_COMM_0, system_id, component_id, 185, data, 145]).val % 256
    ∧ (mavlink_ck_b (crc_calculate
          [1, tx MAVLINK_COMM_0, system_id, component_id, 185, data, 145])).val
        = (crc_calculate
            [1, tx MAVLINK_COMM_0, system_id, component_id, 185, data, 145]).val / 256
    ∧ (sendRequestDataStream STX b junk tx msg).2.1
      = [STX, 1, tx MAVLINK_COMM_0, 255, 1, 185, 123,
         mavlink_ck_a (crc_calculate [1, tx MAVLINK_COMM_0, 255, 1, 185, 123, 145]),
         mavlink_ck_b (crc_calculate [1, tx MAVLINK_COMM_0, 255, 1, 185, 123, 145])] := by
  have h := to_send_buffer_pack STX b junk tx system_id component_id msg data
  have h2 := to_send_buffer_pack STX b junk tx 255 1 msg 123
  refine ⟨?_, ?_, ck_a_val _, ck_b_val _, ?_⟩
  · simpa only [mavlink_msg_pi_trigger_encode, pi_trigger_wire] using h
  · simp only [mavlink_msg_pi_trigger_encode, h, pi_trigger_wire, List.length_cons,
      List.length_nil]
  · simpa only [sendRequestDataStream, mavlink_msg_pi_trigger_encode, pi_trigger_wire]
      using h2

/-! ## C3: parsing a well-formed PI_TRIGGER frame -/

/-- Feeding bytes on one channel of the multiplexer gives the outcomes of
feeding them to that channel's state. -/
theorem parse_chars_outcomes (reg : Registry) (STX chan : uint8_t) (bytes : List uint8_t) :
    ∀ chans : uint8_t → ParserState,
      (parse_chars reg STX chan chans bytes).2 = (feed_bytes reg STX (chans chan) bytes).2 := by
  induction bytes with
  | nil => intro chans; rfl
  | cons c cs ih =>
    intro chans
    simp only [parse_chars, feed_bytes, mavlink_parse_char]
    rw [ih]
    simp

/-- The outcomes of feeding the wire bytes of a PI_TRIGGER frame to a fresh
parser state: eight times `Incomplete`, then the frame. -/
theorem feed_pi_trigger_wire (reg : Registry) (STX seq system_id component_id data : uint8_t)
    (hreg : reg MAVLINK_MSG_ID_PI_TRIGGER = some MAVLINK_MSG_ID_PI_TRIGGER_CRC) :
    (feed_bytes reg STX ParserState.fresh
        (pi_trigger_wire STX seq system_id component_id data)).2
      = List.replicate 8 ParseOutcome.Incomplete ++
          [ParseOutcome.FrameReady
            { checksum := crc_calculate [1, seq, system_id, component_id, 185, data, 145],
              magic := STX, len := 1, seq := seq, sysid := system_id, compid := component_id,
              msgid := 185,
              payload := Function.update zero_message.payload 0 data }] := by
  have hreg2 : reg 185 = some 145 := hreg
  have h1 : ((1 : uint8_t)).val = 1 := rfl
  have hck := ck_recombine (crc_calculate [1, seq, system_id, component_id, 185, data, 145])
  have hcrc : crc_accumulate 145 (crc_accumulate data (crc_accumulate 185
      (crc_accumulate component_id (crc_accumulate system_id (crc_accumulate seq
        (crc_accumulate 1 X25_INIT_CRC))))))
      = crc_calculate [1, seq, system_id, component_id, 185, data, 145] := rfl
  have h16 : to_uint16 (crc_calculate [1, seq, system_id, component_id, 185, data, 145]).val
      = crc_calculate [1, seq, system_id, component_id, 185, data, 145] := by
    apply Fin.ext
    simp [to_uint16, Nat.mod_eq_of_lt (Fin.isLt _)]
  simp only [pi_trigger_wire, feed_bytes, feed_byte, ParserState.fresh, ParserState.validate,
    if_true, h1, zero_message, List.replicate, one_ne_zero, if_false, Nat.lt_irrefl,
    List.cons_append, List.nil_append, hreg2, hcrc, hck, h16]

/-- C3: on a channel whose parser state is fresh, with PI_TRIGGER registered
under its checksum seed, feeding the nine wire bytes of a well-formed
PI_TRIGGER frame carrying 123 (any start marker, sequence number, system and
component id) one at a time reports no complete message for each of the first
eight bytes and on the ninth reports a complete message whose message id is
185 and whose decoded data field is 123. -/
theorem pi_trigger_frame_parses (reg : Registry) (STX seq system_id component_id chan : uint8_t)
    (chans : uint8_t → ParserState)
    (hreg : reg MAVLINK_MSG_ID_PI_TRIGGER = some MAVLINK_MSG_ID_PI_TRIGGER_CRC)
    (hfresh : chans chan = ParserState.fresh) :
    ∃ frame : mavlink_message_t,
      (parse_chars reg STX chan chans
          [STX, 1, seq, system_id, component_id, 185, 123,
           mavlink_ck_a (crc_calculate [1, seq, system_id, component_id, 185, 123, 145]),
           mavlink_ck_b (crc_calculate [1, seq, system_id, component_id, 185, 123, 145])]).2
        = List.replicate 8 ParseOutcome.Incomplete ++ [ParseOutcome.FrameReady frame]
      ∧ (parse_chars reg STX chan chans
          [STX, 1, seq, system_id, component_id, 185, 123,
           mavlink_ck_a (crc_calculate [1, seq, system_id, component_id, 185, 123, 145]),
           mavlink_ck_b (crc_calculate [1, seq, system_id, component_id, 185, 123, 145])]).2.map
            ParseOutcome.msgReceived = [0, 0, 0, 0, 0, 0, 0, 0, 1]
      ∧ frame.msgid = MAVLINK_MSG_ID_PI_TRIGGER
      ∧ mavlink_msg_pi_trigger_get_data frame = 123
      ∧ (mavlink_pi_trigger_t.load
          (mavlink_msg_pi_trigger_decode ⟨false, true⟩ frame (fun _ => 0)).2).data = 123 := by
  have h := feed_pi_trigger_wire reg STX seq system_id component_id 123 hreg
  have hp := parse_chars_outcomes reg STX chan
    (pi_trigger_wire STX seq system_id component_id 123) chans
  rw [hfresh, h] at hp
  simp only [pi_trigger_wire] at hp
  refine ⟨_, hp, ?_, rfl, ?_, ?_⟩
  · rw [hp]; rfl
  · simp [mavlink_msg_pi_trigger_get_data, _MAV_RETURN_uint8_t, _MAV_PAYLOAD]
  · rw [decode_load]; simp

set_option maxRecDepth 10000 in
/-- C3 at a concrete input: the registry holding PI_TRIGGER, start marker 254,
sequence number 0, system id 255, component id 1, channel `MAVLINK_COMM_1`, all
channels fresh; the two checksum bytes are 139 and 130. -/
theorem pi_trigger_frame_parses_witness :
    pi_trigger_registry MAVLINK_MSG_ID_PI_TRIGGER = some MAVLINK_MSG_ID_PI_TRIGGER_CRC
    ∧ mavlink_ck_a (crc_calculate [1, 0, 255, 1, 185, 123, 145]) = 139
    ∧ mavlink_ck_b (crc_calculate [1, 0, 255, 1, 185, 123, 145]) = 130
    ∧ ∃ frame : mavlink_message_t,
      (parse_chars pi_trigger_registry 254 MAVLINK_COMM_1 (fun _ => ParserState.fresh)
          [254, 1, 0, 255, 1, 185, 123,
           mavlink_ck_a (crc_calculate [1, 0, 255, 1, 185, 123, 145]),
           mavlink_ck_b (crc_calculate [1, 0, 255, 1, 185, 123, 145])]).2
        = List.replicate 8 ParseOutcome.Incomplete ++ [ParseOutcome.FrameReady frame]
      ∧ (parse_chars pi_trigger_registry 254 MAVLINK_COMM_1 (fun _ => ParserState.fresh)
          [254, 1, 0, 255, 1, 185, 123,
           mavlink_ck_a (crc_calculate [1, 0, 255, 1, 185, 123, 145]),
           mavlink_ck_b (crc_calculate [1, 0, 255, 1, 185, 123, 145])]).2.map
            ParseOutcome.msgReceived = [0, 0, 0, 0, 0, 0, 0, 0, 1]
      ∧ frame.msgid = MAVLINK_MSG_ID_PI_TRIGGER
      ∧ mavlink_msg_pi_trigger_get_data frame = 123
      ∧ (mavlink_pi_trigger_t.load
          (mavlink_msg_pi_trigger_decode ⟨false, true⟩ frame (fun _ => 0)).2).data = 123 :=
  ⟨by decide, by decide, by decide,
   pi_trigger_frame_parses pi_trigger_registry 254 0 255 1 MAVLINK_COMM_1
     (fun _ => ParserState.fresh) (by decide) rfl⟩

/-! ## C8: the receive loop -/

theorem successful_bytes_cons_pos (r : ReadResult) (rs : List ReadResult) (h : r.ret > 0) :
    successful_bytes (r :: rs) = (MAVLINK_COMM_1, r.cp) :: successful_bytes rs := by
  simp [successful_bytes, h]

theorem successful_bytes_cons_neg (r : ReadResult) (rs : List ReadResult) (h : ¬ r.ret > 0) :
    successful_bytes (r :: rs) = successful_bytes rs := by
  simp [successful_bytes, h]

/-- The run over a successful read on which the parser reports a message. -/
theorem serial_readMSG_cons_done {P : Type} (parse : uint8_t → uint8_t → P → P × uint8_t)
    (st : P) (r : ReadResult) (rs : List ReadResult) (h : r.ret > 0)
    (hm : (parse MAVLINK_COMM_1 r.cp st).2 ≠ 0) :
    serial_readMSG parse st (r :: rs)
      = { parser := (parse MAVLINK_COMM_1 r.cp st).1, fed := [(MAVLINK_COMM_1, r.cp)],
          reads := 1, ret := some 0 } := by
  simp [serial_readMSG, h, hm]

/-- The run over a successful read on which the parser reports no message. -/
theorem serial_readMSG_cons_more {P : Type} (parse : uint8_t → uint8_t → P → P × uint8_t)
    (st : P) (r : ReadResult) (rs : List ReadResult) (h : r.ret > 0)
    (hm : (parse MAVLINK_COMM_1 r.cp st).2 = 0) :
    serial_readMSG parse st (r :: rs)
      = { parser := (serial_readMSG parse (parse MAVLINK_COMM_1 r.cp st).1 rs).parser,
          fed := (MAVLINK_COMM_1, r.cp)
            :: (serial_readMSG parse (parse MAVLINK_COMM_1 r.cp st).1 rs).fed,
          reads := (serial_readMSG parse (parse MAVLINK_COMM_1 r.cp st).1 rs).reads + 1,
          ret := (serial_readMSG parse (parse MAVLINK_COMM_1 r.cp st).1 rs).ret } := by
  simp [serial_readMSG, h, hm]

/-- The run over a failed read. -/
theorem serial_readMSG_cons_fail {P : Type} (parse : uint8_t → uint8_t → P → P × uint8_t)
    (st : P) (r : ReadResult) (rs : List ReadResult) (h : ¬ r.ret > 0) :
    serial_readMSG parse st (r :: rs)
      = { parser := (serial_readMSG parse st rs).parser,
          fed := (serial_readMSG parse st rs).fed,
          reads := (serial_readMSG parse st rs).reads + 1,
          ret := (serial_readMSG parse st rs).ret } := by
  simp [serial_readMSG, h]

/-- The bytes fed are those of the successful reads among the reads consumed,
and no more reads are consumed than there are. -/
theorem serial_readMSG_fed {P : Type} (parse : uint8_t → uint8_t → P → P × uint8_t)
    (reads : List ReadResult) :
    ∀ st : P, (serial_readMSG parse st reads).fed
        = successful_bytes (reads.take (serial_readMSG parse st reads).reads)
      ∧ (serial_readMSG parse st reads).reads ≤ reads.length := by
  induction reads with
  | nil => intro st; simp [serial_readMSG, successful_bytes]
  | cons r rs ih =>
    intro st
    by_cases h : r.ret > 0
    · by_cases hm : (parse MAVLINK_COMM_1 r.cp st).2 = 0
      · rw [serial_readMSG_cons_more parse st r rs h hm]
        obtain ⟨h1, h2⟩ := ih (parse MAVLINK_COMM_1 r.cp st).1
        simp only [List.take_succ_cons, List.length_cons]
        rw [successful_bytes_cons_pos _ _ h, ← h1]
        exact ⟨rfl, by omega⟩
      · rw [serial_readMSG_cons_done parse st r rs h hm]
        simp [successful_bytes, h]
    · rw [serial_readMSG_cons_fail parse st r rs h]
      obtain ⟨h1, h2⟩ := ih st
      simp only [List.take_succ_cons, List.length_cons]
      rw [successful_bytes_cons_neg _ _ h, ← h1]
      exact ⟨rfl, by omega⟩

/-- The parser state a run leaves is the one the calls it made lead to. -/
theorem serial_readMSG_final_state {P : Type} (parse : uint8_t → uint8_t → P → P × uint8_t)
    (reads : List ReadResult) :
    ∀ st : P, (serial_readMSG parse st reads).parser
        = parse_all parse st (serial_readMSG parse st reads).fed := by
  induction reads with
  | nil => intro st; simp [serial_readMSG, parse_all]
  | cons r rs ih =>
    intro st
    by_cases h : r.ret > 0
    · by_cases hm : (parse MAVLINK_COMM_1 r.cp st).2 = 0
      · rw [serial_readMSG_cons_more parse st r rs h hm]
        simp only [parse_all]
        exact ih _
      · rw [serial_readMSG_cons_done parse st r rs h hm]
        simp [parse_all]
    · rw [serial_readMSG_cons_fail parse st r rs h]
      exact ih st

/-- What the parser reported on the calls of a run: a run that returns, returns
0 and saw a message on its last call only, which is the last read it consumed;
a run that does not return saw no message and consumed every read. -/
theorem serial_readMSG_reports {P : Type} (parse : uint8_t → uint8_t → P → P × uint8_t)
    (reads : List ReadResult) :
    ∀ st : P,
      ((serial_readMSG parse st reads).ret = some 0
        ∧ (∃ x, x ≠ 0 ∧ parse_reports parse st (serial_readMSG parse st reads).fed
            = List.replicate ((serial_readMSG parse st reads).fed.length - 1) 0 ++ [x])
        ∧ (∃ r, reads[(serial_readMSG parse st reads).reads - 1]? = some r ∧ r.ret > 0
            ∧ (serial_readMSG parse st reads).fed.getLast? = some (MAVLINK_COMM_1, r.cp)))
      ∨ ((serial_readMSG parse st reads).ret = none
        ∧ parse_reports parse st (serial_readMSG parse st reads).fed
            = List.replicate (serial_readMSG parse st reads).fed.length 0
        ∧ (serial_readMSG parse st reads).reads = reads.length) := by
  induction reads with
  | nil => intro st; right; simp [serial_readMSG, parse_reports]
  | cons r rs ih =>
    intro st
    by_cases h : r.ret > 0
    · by_cases hm : (parse MAVLINK_COMM_1 r.cp st).2 = 0
      · rw [serial_readMSG_cons_more parse st r rs h hm]
        rcases ih (parse MAVLINK_COMM_1 r.cp st).1 with ⟨h1, ⟨x, hx, h2⟩, ⟨r2, h3, h4, h5⟩⟩ | ⟨h1, h2, h3⟩
        · left
          have hfed : (serial_readMSG parse (parse MAVLINK_COMM_1 r.cp st).1 rs).fed ≠ [] := by
            intro hnil
            rw [hnil] at h5
            simp at h5
          have hreads : 0 < (serial_readMSG parse (parse MAVLINK_COMM_1 r.cp st).1 rs).reads := by
            by_contra hz
            have hz2 : (serial_readMSG parse (parse MAVLINK_COMM_1 r.cp st).1 rs).reads = 0 := by
              omega
            have := (serial_readMSG_fed parse rs (parse MAVLINK_COMM_1 r.cp st).1).1
            rw [hz2] at this
            simp [successful_bytes] at this
            exact hfed this
          have hlen : 0 < (serial_readMSG parse (parse MAVLINK_COMM_1 r.cp st).1 rs).fed.length :=
            List.length_pos.mpr hfed
          refine ⟨h1, ⟨x, hx, ?_⟩, ⟨r2, ?_, h4, ?_⟩⟩
          · simp only [parse_reports, hm, h2, List.length_cons, Nat.add_sub_cancel]
            have : (serial_readMSG parse (parse MAVLINK_COMM_1 r.cp st).1 rs).fed.length
                = ((serial_readMSG parse (parse MAVLINK_COMM_1 r.cp st).1 rs).fed.length - 1) + 1 := by
              omega
            rw [this, List.replicate_succ]
            simp
          · have : (serial_readMSG parse (parse MAVLINK_COMM_1 r.cp st).1 rs).reads + 1 - 1
                = ((serial_readMSG parse (parse MAVLINK_COMM_1 r.cp st).1 rs).reads - 1) + 1 := by
              omega
            simp only [this, List.getElem?_cons_succ]
            exact h3
          · obtain ⟨a, l, hl⟩ := List.exists_cons_of_ne_nil hfed
            rw [hl] at h5 ⊢
            rw [List.getLast?_cons_cons]
            exact h5
        · right
          refine ⟨h1, ?_, ?_⟩
          · simp only [parse_reports, hm, h2, List.length_cons, List.replicate_succ]
          · simp [h3]
      · rw [serial_readMSG_cons_done parse st r rs h hm]
        left
        refine ⟨rfl, ⟨_, hm, ?_⟩, ⟨r, ?_, h, ?_⟩⟩
        · simp [parse_reports]
        · simp
        · simp
    · rw [serial_readMSG_cons_fail parse st r rs h]
      rcases ih st with ⟨h1, ⟨x, hx, h2⟩, ⟨r2, h3, h4, h5⟩⟩ | ⟨h1, h2, h3⟩
      · left
        have hfed : (serial_readMSG parse st rs).fed ≠ [] := by
          intro hnil
          rw [hnil] at h5
          simp at h5
        have hreads : 0 < (serial_readMSG parse st rs).reads := by
          by_contra hz
          have hz2 : (serial_readMSG parse st rs).reads = 0 := by omega
          have := (serial_readMSG_fed parse rs st).1
          rw [hz2] at this
          simp [successful_bytes] at this
          exact hfed this
        refine ⟨h1, ⟨x, hx, h2⟩, ⟨r2, ?_, h4, h5⟩⟩
        have : (serial_readMSG parse st rs).reads + 1 - 1
            = ((serial_readMSG parse st rs).reads - 1) + 1 := by omega
        simp only [this, List.getElem?_cons_succ]
        exact h3
      · right
        exact ⟨h1, h2, by simp [h3]⟩

/-- A run returns exactly when the parser reports a message on one of the
successfully read bytes. -/
theorem serial_readMSG_returns_iff {P : Type} (parse : uint8_t → uint8_t → P → P × uint8_t)
    (reads : List ReadResult) :
    ∀ st : P, (serial_readMSG parse st reads).ret = some 0
      ↔ ∃ x ∈ parse_reports parse st (successful_bytes reads), x ≠ 0 := by
  induction reads with
  | nil => intro st; simp [serial_readMSG, successful_bytes, parse_reports]
  | cons r rs ih =>
    intro st
    by_cases h : r.ret > 0
    · by_cases hm : (parse MAVLINK_COMM_1 r.cp st).2 = 0
      · rw [serial_readMSG_cons_more parse st r rs h hm, successful_bytes_cons_pos _ _ h]
        simp only [parse_reports, hm, List.mem_cons]
        rw [ih]
        constructor
        · rintro ⟨x, hx, hne⟩
          exact ⟨x, Or.inr hx, hne⟩
        · rintro ⟨x, hx | hx, hne⟩
          · exact absurd hx hne
          · exact ⟨x, hx, hne⟩
      · rw [serial_readMSG_cons_done parse st r rs h hm, successful_bytes_cons_pos _ _ h]
        simp only [parse_reports, List.mem_cons, true_iff]
        exact ⟨_, Or.inl rfl, hm⟩
    · rw [serial_readMSG_cons_fail parse st r rs h, successful_bytes_cons_neg _ _ h]
      exact ih st

/-- Failed reads change nothing: the run over all reads and the run over the
successful ones make the same calls, leave the same parser state and return
the same. -/
theorem serial_readMSG_skip_failed {P : Type} (parse : uint8_t → uint8_t → P → P × uint8_t)
    (reads : List ReadResult) :
    ∀ st : P,
      (serial_readMSG parse st (reads.filter (fun r => decide (r.ret > 0)))).fed
          = (serial_readMSG parse st reads).fed
      ∧ (serial_readMSG parse st (reads.filter (fun r => decide (r.ret > 0)))).parser
          = (serial_readMSG parse st reads).parser
      ∧ (serial_readMSG parse st (reads.filter (fun r => decide (r.ret > 0)))).ret
          = (serial_readMSG parse st reads).ret := by
  induction reads with
  | nil => intro st; simp
  | cons r rs ih =>
    intro st
    by_cases h : r.ret > 0
    · have hf : (r :: rs).filter (fun r => decide (r.ret > 0))
          = r :: rs.filter (fun r => decide (r.ret > 0)) := by simp [h]
      rw [hf]
      by_cases hm : (parse MAVLINK_COMM_1 r.cp st).2 = 0
      · rw [serial_readMSG_cons_more parse st r rs h hm,
          serial_readMSG_cons_more parse st r _ h hm]
        obtain ⟨h1, h2, h3⟩ := ih (parse MAVLINK_COMM_1 r.cp st).1
        simp only [h1, h2, h3, and_self]
      · rw [serial_readMSG_cons_done parse st r rs h hm,
          serial_readMSG_cons_done parse st r _ h hm]
        simp
    · have hf : (r :: rs).filter (fun r => decide (r.ret > 0))
          = rs.filter (fun r => decide (r.ret > 0)) := by simp [h]
      rw [hf, serial_readMSG_cons_fail parse st r rs h]
      exact ih st

/-- C8: for every parser, parser state and sequence of read results, the calls
`serial_readMSG` makes to the parser are exactly the bytes of the successful
reads among the reads it consumed, once each, in arrival order and all on
`MAVLINK_COMM_1`; the parser state it leaves is the one these calls lead to;
failed reads change nothing (the run over the successful reads alone makes the
same calls, leaves the same state and returns the same); it returns exactly
when the parser reports a message on a successfully read byte, and then
returns 0 right after the first such byte: the parser reported nothing on
the earlier calls, and the last call is the last read consumed. A run that has
not returned has consumed every read, with nothing reported. -/
theorem serial_readMSG_receive_loop {P : Type} (parse : uint8_t → uint8_t → P → P × uint8_t)
    (st : P) (reads : List ReadResult) :
    (serial_readMSG parse st reads).fed
        = successful_bytes (reads.take (serial_readMSG parse st reads).reads)
    ∧ (∀ call ∈ (serial_readMSG parse st reads).fed, call.1 = MAVLINK_COMM_1)
    ∧ (serial_readMSG parse st reads).parser
        = parse_all parse st (serial_readMSG parse st reads).fed
    ∧ ((serial_readMSG parse st (reads.filter (fun r => decide (r.ret > 0)))).fed
          = (serial_readMSG parse st reads).fed
      ∧ (serial_readMSG parse st (reads.filter (fun r => decide (r.ret > 0)))).parser
          = (serial_readMSG parse st reads).parser
      ∧ (serial_readMSG parse st (reads.filter (fun r => decide (r.ret > 0)))).ret
          = (serial_readMSG parse st reads).ret)
    ∧ ((serial_readMSG parse st reads).ret = some 0
        ↔ ∃ x ∈ parse_reports parse st (successful_bytes reads), x ≠ 0)
    ∧ (((serial_readMSG parse st reads).ret = some 0
        ∧ (∃ x, x ≠ 0 ∧ parse_reports parse st (serial_readMSG parse st reads).fed
            = List.replicate ((serial_readMSG parse st reads).fed.length - 1) 0 ++ [x])
        ∧ (∃ r, reads[(serial_readMSG parse st reads).reads - 1]? = some r ∧ r.ret > 0
            ∧ (serial_readMSG parse st reads).fed.getLast? = some (MAVLINK_COMM_1, r.cp)))
      ∨ ((serial_readMSG parse st reads).ret = none
        ∧ parse_reports parse st (serial_readMSG parse st reads).fed
            = List.replicate (serial_readMSG parse st reads).fed.length 0
        ∧ (serial_readMSG parse st reads).reads = reads.length)) := by
  refine ⟨(serial_readMSG_fed parse reads st).1, ?_, serial_readMSG_final_state parse reads st,
    serial_readMSG_skip_failed parse reads st, serial_readMSG_returns_iff parse reads st,
    serial_readMSG_reports parse reads st⟩
  intro call hcall
  rw [(serial_readMSG_fed parse reads st).1] at hcall
  simp only [successful_bytes, List.mem_map] at hcall
  obtain ⟨r, _, hr⟩ := hcall
  rw [← hr]

/-! ## C10: baud-rate validation -/

/-- Clearing flags keeps exactly the bits of `flags` outside `mask`. -/
theorem clear_flags_testBit (flags mask i : Nat) :
    (clear_flags flags mask).testBit i = (flags.testBit i && !mask.testBit i) := by
  simp only [clear_flags, Nat.testBit_xor, Nat.testBit_and]
  cases flags.testBit i <;> cases mask.testBit i <;> rfl

/-- The `switch` of `setup_port` fails on every baud rate without a `case`. -/
theorem setup_port_baud_unsupported (k : TermiosConsts) (os : SerialOS) (config : termios)
    (baud : Int) (h : baud ∉ supported_bauds) : setup_port_baud k os config baud = none := by
  simp only [supported_bauds, List.mem_cons, List.mem_singleton, List.mem_nil_iff, or_false,
    not_or] at h
  obtain ⟨h1, h2, h3, h4, h5, h6, h7, h8, h9⟩ := h
  simp [setup_port_baud, h1, h2, h3, h4, h5, h6, h7, h8, h9]

/-- C10: for every baud value outside 1200, 1800, 9600, 19200, 38400, 57600,
115200, 460800 and 921600, `setup_port` returns false and does not reach
`tcsetattr`, whatever the platform constants, the results of the system calls,
the descriptor and the other arguments; and for every baud value what
`setup_port` does never depends on `data_bits`, `stop_bits`, `parity` and
`hardware_control`. -/
theorem setup_port_validates_baud (k : TermiosConsts) (os : SerialOS) (fd baud : Int)
    (data_bits stop_bits : Int) (parity hardware_control : Bool) :
    (baud ∉ supported_bauds →
      (setup_port k os fd baud data_bits stop_bits parity hardware_control).ret = false
      ∧ (setup_port k os fd baud data_bits stop_bits parity hardware_control).applied = none)
    ∧ (∀ (data_bits2 stop_bits2 : Int) (parity2 hardware_control2 : Bool),
        setup_port k os fd baud data_bits2 stop_bits2 parity2 hardware_control2
          = setup_port k os fd baud data_bits stop_bits parity hardware_control) := by
  refine ⟨?_, fun _ _ _ _ => rfl⟩
  intro h
  unfold setup_port
  by_cases h1 : os.isatty fd = 0
  · simp [h1]
  · by_cases h2 : (os.tcgetattr fd).1 < 0
    · simp [h1, h2]
    · simp [h1, h2, setup_port_baud_unsupported k os _ baud h]

/-- C10 at concrete inputs: on Linux constants and a system where every call
succeeds, 4800 baud is refused without reaching `tcsetattr`, while 115200 baud
is accepted and applied to the descriptor. -/
theorem setup_port_validates_baud_witness :
    (4800 : Int) ∉ supported_bauds
    ∧ (setup_port linux_termios obliging_os 3 4800 8 1 false false).ret = false
    ∧ (setup_port linux_termios obliging_os 3 4800 8 1 false false).applied = none
    ∧ (setup_port linux_termios obliging_os 3 115200 8 1 false false).ret = true
    ∧ ((setup_port linux_termios obliging_os 3 115200 8 1 false false).applied.map
        (fun a => (a.1, a.2.c_iflag, a.2.c_oflag, a.2.c_cflag, a.2.c_lflag, a.2.c_cc 6,
          a.2.c_cc 5))) = some ((3 : Int), 0, 0, 4274, 0xa30, 1, 10) :=
  ⟨by decide,
   ((setup_port_validates_baud linux_termios obliging_os 3 4800 8 1 false false).1
      (by decide)).1,
   ((setup_port_validates_baud linux_termios obliging_os 3 4800 8 1 false false).1
      (by decide)).2,
   by decide, by rfl⟩

/-! ## C11: the result codes of `setupPort` -/

/-- The value `open_port` returns is the one `open` returned. -/
theorem open_port_ret (fs : FileOS) (port : List uint8_t) :
    (open_port fs port).ret
      = fs.open_file port (fs.O_RDWR ||| fs.O_NOCTTY ||| fs.O_NDELAY) := by
  unfold open_port
  by_cases h : fs.open_file port (fs.O_RDWR ||| fs.O_NOCTTY ||| fs.O_NDELAY) = -1
  · simp [h]
  · simp [h]

/-- The value `setupPort` returns, by cases on the descriptor and on the result
of `setup_port`, whatever `open` returns. -/
theorem setupPort_ret (k : TermiosConsts) (os : SerialOS) (fs : FileOS)
    (uart_name : List uint8_t) (baudrate : Int) :
    (setupPort k os fs uart_name baudrate).ret
      = if (open_port fs uart_name).ret = -1 then 1
        else if (setup_port k os (open_port fs uart_name).ret baudrate 8 1 false false).ret
            = false then 1
        else if (open_port fs uart_name).ret = 0 then 1
        else if (open_port fs uart_name).ret < 0 then 0
        else 2 := by
  unfold setupPort
  by_cases h1 : (open_port fs uart_name).ret = -1
  · simp [h1, EXIT_FAILURE]
  · by_cases h2 : (setup_port k os (open_port fs uart_name).ret baudrate 8 1 false false).ret
        = false
    · simp [h1, h2, EXIT_FAILURE]
    · by_cases h3 : (open_port fs uart_name).ret = 0
      · simp [h1, h2, h3, EXIT_FAILURE]
      · by_cases h4 : (open_port fs uart_name).ret < 0
        · simp [h1, h2, h3, h4]
        · simp [h1, h2, h3, h4]

/-- Without the assumption on `open` the value 0 is possible: a negative
descriptor other than -1 that `setup_port` accepts makes `setupPort` return 0,
with which `main` exits. -/
theorem setupPort_negative_descriptor :
    (setupPort linux_termios obliging_os (opening_fs (-5)) main_uart_name 115200).ret = 0
    ∧ main linux_termios obliging_os (opening_fs (-5)) = MainStart.exited 0 := by
  constructor <;> rfl

/-- C11: when `open` returns -1 or a non-negative descriptor, `setupPort`
returns `EXIT_FAILURE` (1) or 2 and never 0; it returns `EXIT_FAILURE` when the
port cannot be opened, when `setup_port` fails, and when the descriptor is 0
even though `setup_port` succeeded; it returns 2 exactly when the descriptor is
positive and `setup_port` succeeded; and `main` goes on to send and receive
exactly when its call of `setupPort` returns 2, and exits with the status
otherwise. -/
theorem setupPort_result_codes (k : TermiosConsts) (os : SerialOS) (fs : FileOS)
    (uart_name : List uint8_t) (baudrate : Int)
    (hopen : ∀ port flags, fs.open_file port flags = -1 ∨ 0 ≤ fs.open_file port flags) :
    EXIT_FAILURE = 1
    ∧ ((setupPort k os fs uart_name baudrate).ret = EXIT_FAILURE
        ∨ (setupPort k os fs uart_name baudrate).ret = 2)
    ∧ (setupPort k os fs uart_name baudrate).ret ≠ 0
    ∧ ((open_port fs uart_name).ret = -1 →
        (setupPort k os fs uart_name baudrate).ret = EXIT_FAILURE)
    ∧ ((setup_port k os (open_port fs uart_name).ret baudrate 8 1 false false).ret = false →
        (setupPort k os fs uart_name baudrate).ret = EXIT_FAILURE)
    ∧ ((open_port fs uart_name).ret = 0 →
        (setupPort k os fs uart_name baudrate).ret = EXIT_FAILURE)
    ∧ ((setupPort k os fs uart_name baudrate).ret = 2
        ↔ 0 < (open_port fs uart_name).ret
          ∧ (setup_port k os (open_port fs uart_name).ret baudrate 8 1 false false).ret = true)
    ∧ ((∃ fd, main k os fs = MainStart.proceeds fd)
        ↔ (setupPort k os fs main_uart_name 115200).ret = 2)
    ∧ ((setupPort k os fs main_uart_name 115200).ret ≠ 2 →
        main k os fs = MainStart.exited (setupPort k os fs main_uart_name 115200).ret) := by
  have hfd : ∀ port, (open_port fs port).ret = -1 ∨ 0 ≤ (open_port fs port).ret := by
    intro port
    rw [open_port_ret]
    exact hopen _ _
  have hcodes : ∀ port baud, (setupPort k os fs port baud).ret = 1
      ∨ (setupPort k os fs port baud).ret = 2 := by
    intro port baud
    rw [setupPort_ret]
    rcases hfd port with h | h
    · simp [h]
    · split_ifs <;> omega
  have hret := setupPort_ret k os fs uart_name baudrate
  refine ⟨rfl, hcodes uart_name baudrate, ?_, ?_, ?_, ?_, ?_, ?_, ?_⟩
  · rcases hcodes uart_name baudrate with h | h <;> omega
  · intro h
    rw [hret]
    simp [h, EXIT_FAILURE]
  · intro h
    rw [hret]
    simp only [h, EXIT_FAILURE]
    split_ifs <;> rfl
  · intro h
    rw [hret]
    simp only [h, EXIT_FAILURE]
    split_ifs <;> rfl
  · rw [hret]
    constructor
    · intro h
      split_ifs at h with h1 h2 h3 h4
      all_goals first | omega | skip
      refine ⟨by omega, ?_⟩
      cases hs : (setup_port k os (open_port fs uart_name).ret baudrate 8 1 false false).ret
      · exact absurd hs h2
      · rfl
    · rintro ⟨hpos, hs⟩
      have h1 : ¬ (open_port fs uart_name).ret = -1 := by omega
      have h3 : ¬ (open_port fs uart_name).ret = 0 := by omega
      have h4 : ¬ (open_port fs uart_name).ret < 0 := by omega
      simp [h1, h3, h4, hs]
  · unfold main
    rcases hcodes main_uart_name 115200 with h | h
    · simp [h, EXIT_FAILURE]
    · simp [h, EXIT_FAILURE]
  · intro hne
    unfold main
    rcases hcodes main_uart_name 115200 with h | h
    · simp [h, EXIT_FAILURE]
    · exact absurd h hne

/-- C11 at concrete inputs, on Linux constants and a system where every call
of `setup_port` succeeds: with `open` giving descriptor 3 `setupPort` returns 2
and `main` goes on with descriptor 3; with `open` giving descriptor 0 or
failing with -1 it returns 1 and `main` exits with 1. -/
theorem setupPort_result_codes_witness :
    (∀ port flags, (opening_fs 3).open_file port flags = -1
        ∨ 0 ≤ (opening_fs 3).open_file port flags)
    ∧ ((setupPort linux_termios obliging_os (opening_fs 3) main_uart_name 115200).ret = 2
        ↔ 0 < (open_port (opening_fs 3) main_uart_name).ret
          ∧ (setup_port linux_termios obliging_os (open_port (opening_fs 3) main_uart_name).ret
              115200 8 1 false false).ret = true)
    ∧ (setupPort linux_termios obliging_os (opening_fs 3) main_uart_name 115200).ret = 2
    ∧ main linux_termios obliging_os (opening_fs 3) = MainStart.proceeds 3
    ∧ (setupPort linux_termios obliging_os (opening_fs 0) main_uart_name 115200).ret = 1
    ∧ main linux_termios obliging_os (opening_fs 0) = MainStart.exited 1
    ∧ (setupPort linux_termios obliging_os (opening_fs (-1)) main_uart_name 115200).ret = 1
    ∧ (setupPort linux_termios obliging_os (opening_fs 3) main_uart_name 4800).ret = 1 :=
  ⟨fun _ _ => Or.inr (show (0 : Int) ≤ 3 by decide),
   (setupPort_result_codes linux_termios obliging_os (opening_fs 3) main_uart_name 115200
      (fun _ _ => Or.inr (show (0 : Int) ≤ 3 by decide))).2.2.2.2.2.2.1,
   by rfl, by rfl, by rfl, by rfl, by rfl, by rfl⟩

end Mavlink
